import Mathlib

/-!
Shallow embedding of the consul agent proxy-configuration manager
(`agent/proxycfg/state.go`) and of the anti-entropy state syncer
(`agent/local/ae/ae.go`), together with proofs of the specified
properties.

Conventions of the embedding:

* Go machine integers that never overflow in the verified code paths are
  `Nat`; durations are `Nat` nanoseconds.
* Go maps are association lists (`List (String × α)` and friends) with
  lookup returning the most recently inserted binding.
* Side effects (registering a cache watch, cancelling a watch context,
  firing a trigger) are recorded as explicit action values in the result of
  the embedded function instead of being performed.
* External collaborators (the cache `Notify` layer, `copystructure`,
  `net.ParseIP`) are embedded by small executable models, each documented at
  its definition.
-/

set_option maxHeartbeats 1000000

namespace Consul

/-! ## Anti-entropy syncer: cluster-size scale factor (`ae.go`) -/

/-- Constant `scaleThreshold` from `ae.go`: the number of nodes after which regular
sync runs are spread out farther apart. -/
def scaleThreshold : Nat := 128

/-- Function `scaleFactor` from `ae.go`.  The Go source computes
`int(math.Ceil(math.Log2(float64 nodes) - math.Log2(float64 scaleThreshold)) + 1.0)`
with 64-bit floats; the `Log2`/`Ceil` pipeline is embedded as the exact
ceiling of the real base-2 logarithm, which on naturals is `Nat.clog 2`
(and `Nat.clog 2 scaleThreshold = 7` exactly, so the float subtraction is
exact as well). -/
def scaleFactor (nodes : Nat) : Nat :=
  if nodes ≤ scaleThreshold then 1
  else Nat.clog 2 nodes - Nat.clog 2 scaleThreshold + 1

/-! ## Anti-entropy syncer: pause / resume (`ae.go`) -/

/-- The pause/resume portion of `StateSyncer` state, with the observable
effects (`close(chPaused)`, `SyncChanges.Trigger()`) recorded explicitly.
Go channels are identified by the value of an allocation counter. -/
structure SyncerState where
  paused : Nat
  chPaused : Option Nat
  nextChan : Nat
  closedChans : List Nat
  syncChangesTriggers : Nat
deriving Repr, DecidableEq

def SyncerState.init : SyncerState :=
  { paused := 0, chPaused := none, nextChan := 0, closedChans := [],
    syncChangesTriggers := 0 }

/-- Method `StateSyncer.Pause`: increment the refcount; allocate the paused signal
channel when there is none. -/
def syncerPause (s : SyncerState) : SyncerState :=
  match s.chPaused with
  | some _ => { s with paused := s.paused + 1 }
  | none =>
      { s with paused := s.paused + 1, chPaused := some s.nextChan,
               nextChan := s.nextChan + 1 }

/-- Method `StateSyncer.Resume`: decrement the refcount (`none` embeds the Go
`panic("unbalanced pause/resume")` on underflow, and the panic of closing a
nil channel); on the transition to zero, close the paused channel, clear it,
and fire one `SyncChanges` trigger.  The `Bool` is the `resumed` return
value. -/
def syncerResume (s : SyncerState) : Option (Bool × SyncerState) :=
  if s.paused = 0 then none
  else
    let paused1 := s.paused - 1
    if paused1 = 0 then
      match s.chPaused with
      | some c =>
          some (true,
            { s with paused := paused1, chPaused := none,
                     closedChans := c :: s.closedChans,
                     syncChangesTriggers := s.syncChangesTriggers + 1 })
      | none => none
    else some (false, { s with paused := paused1 })

/-- Method `StateSyncer.WaitResume`: the paused signal channel, or the nil sentinel
(`none`) when not paused. -/
def syncerWaitResume (s : SyncerState) : Option Nat := s.chPaused

/-- Method `StateSyncer.isPaused`. -/
def syncerIsPaused (s : SyncerState) : Bool := s.paused ≠ 0

inductive SyncerOp
  | pause
  | resume
deriving Repr, DecidableEq

/-- Run a sequence of Pause/Resume calls; `none` when any call panics. -/
def syncerRunOps : List SyncerOp → SyncerState → Option SyncerState
  | [], s => some s
  | SyncerOp.pause :: ops, s => syncerRunOps ops (syncerPause s)
  | SyncerOp.resume :: ops, s =>
      match syncerResume s with
      | none => none
      | some (_, s1) => syncerRunOps ops s1

/-- The `StateSyncer` pause-field invariant: the paused channel exists
exactly while the refcount is positive. -/
def SyncerInv (s : SyncerState) : Prop :=
  (s.paused = 0 ↔ s.chPaused = none)

/-- A concrete twice-paused syncer state used to instantiate C8. -/
def syncerStateTwo : SyncerState :=
  { paused := 2, chPaused := some 5, nextChan := 6, closedChans := [],
    syncChangesTriggers := 0 }

/-! ## Anti-entropy syncer: full-sync state machine (`ae.go`) -/

/-- Observable actions of `StateSyncer.fullSync`. -/
inductive SyncAction
  | scheduleNextFullSync (d : Nat)
  | callSyncFull (ok : Bool)
  | startWait (d : Nat)
deriving Repr, DecidableEq

/-- The events the `delay > 0` select of `fullSync` can observe. -/
inductive SyncEvent
  | timerElapsed
  | syncFullTrigger
  | shutdown
deriving Repr, DecidableEq

inductive SyncOutcome
  | success
  | shutdown
  | outOfFuel
deriving Repr, DecidableEq

/-- Environment oracle for a `fullSync` run: the `Delayer.Jitter` values (a
function of the base duration), and the `isPaused` flag and `SyncFull`
result sampled at the i-th `delay = 0` iteration. -/
structure SyncOracle where
  jitter : Nat → Nat
  pausedAt : Nat → Bool
  syncOkAt : Nat → Bool

structure SyncerConfig where
  interval : Nat
  serverUpInterval : Nat
  retryFailInterval : Nat

/-- Method `StateSyncer.fullSync` from `ae.go`, embedded as a fuelled recursion
producing the trace of its observable actions.  `delay = 0` iterations
schedule `timerNextFullSync`, check `isPaused`, and call `SyncFull`;
`delay > 0` iterations select among the elapsed timer, a `SyncFull`
trigger, and shutdown, consuming `events`. -/
def fullSyncLoop (cfg : SyncerConfig) (o : SyncOracle) :
    Nat → List SyncEvent → Nat → Nat → List SyncAction × SyncOutcome
  | 0, _, _, _ => ([], SyncOutcome.outOfFuel)
  | fuel + 1, events, i, delay =>
    if delay = 0 then
      let sched := SyncAction.scheduleNextFullSync (cfg.interval + o.jitter cfg.interval)
      let retry := cfg.retryFailInterval + o.jitter cfg.retryFailInterval
      if o.pausedAt i then
        let r := fullSyncLoop cfg o fuel events (i + 1) retry
        (sched :: r.1, r.2)
      else if o.syncOkAt i then
        ([sched, SyncAction.callSyncFull true], SyncOutcome.success)
      else
        let r := fullSyncLoop cfg o fuel events (i + 1) retry
        (sched :: SyncAction.callSyncFull false :: r.1, r.2)
    else
      match events with
      | [] => ([SyncAction.startWait delay], SyncOutcome.outOfFuel)
      | SyncEvent.timerElapsed :: rest =>
          let r := fullSyncLoop cfg o fuel rest i 0
          (SyncAction.startWait delay :: r.1, r.2)
      | SyncEvent.syncFullTrigger :: rest =>
          let r := fullSyncLoop cfg o fuel rest i (o.jitter cfg.serverUpInterval)
          (SyncAction.startWait delay :: r.1, r.2)
      | SyncEvent.shutdown :: _ =>
          ([SyncAction.startWait delay], SyncOutcome.shutdown)

/-! ## Proxy registration change detection (`state.go`: `state.Changed`) -/

/-- Record `structs.Upstream`, reduced to the fields read by `copyProxyConfig` and
compared (as part of the proxy config) by `state.Changed`. -/
structure UpstreamDef where
  destinationType : String
  destinationName : String
  destinationNamespace : String
  datacenter : String
deriving Repr, DecidableEq

/-- Record `structs.ConnectProxyConfig`, reduced to representative fields; the
deep-equality in `Changed` is structural equality of this value. -/
structure ConnectProxyConfig where
  destinationServiceName : String
  destinationServiceID : String
  mode : String
  upstreams : List UpstreamDef
deriving Repr, DecidableEq, Inhabited

/-- Record `structs.NodeService`, reduced to the fields `state.Changed` and
`copyProxyConfig` read.  `namespaceMeta` is the `EnterpriseMeta` namespace,
with the empty string standing for the default namespace. -/
structure NodeService where
  kind : String
  service : String
  id : String
  namespaceMeta : String
  address : String
  port : Nat
  proxy : ConnectProxyConfig
deriving Repr, DecidableEq

def namespaceOrDefault (ns : String) : String :=
  if ns = "" then "default" else ns

def upstreamDestTypePreparedQuery : String := "prepared_query"

/-- Method `NodeService.CompoundServiceID`: the service id qualified by
its namespace. -/
def compoundServiceID (ns : NodeService) : String × String :=
  (namespaceOrDefault ns.namespaceMeta, ns.id)

/-- Function `copyProxyConfig` from `state.go`: a structural copy of the proxy
config (`copystructure.Copy` embedded as the identity on the pure value),
with the destination namespace of every non-prepared-query upstream that
has none defaulted to the namespace of the proxy. -/
def copyProxyConfig (ns : Option NodeService) : ConnectProxyConfig :=
  match ns with
  | none => default
  | some nsv =>
      { nsv.proxy with
        upstreams := nsv.proxy.upstreams.map (fun u =>
          if u.destinationType ≠ upstreamDestTypePreparedQuery ∧
              u.destinationNamespace = "" then
            { u with destinationNamespace := namespaceOrDefault nsv.namespaceMeta }
          else u) }

/-- The `serviceInstance` record from `state.go`. -/
structure ServiceInstance where
  kind : String
  service : String
  proxyID : String × String
  address : String
  port : Nat
  proxyCfg : ConnectProxyConfig
  token : String
deriving Repr, DecidableEq

/-- Method `state.Changed` from `state.go`: a nil registration is always a change;
otherwise any difference in kind, compound service id, address, port, proxy
config (deep equality against the copied config), or token. -/
def stateChanged (s : ServiceInstance) (ns : Option NodeService)
    (token : String) : Bool :=
  match ns with
  | none => true
  | some nsv =>
      decide (nsv.kind ≠ s.kind ∨
        s.proxyID ≠ compoundServiceID nsv ∨
        s.address ≠ nsv.address ∨
        s.port ≠ nsv.port ∨
        s.proxyCfg ≠ copyProxyConfig (some nsv) ∨
        s.token ≠ token)

/-! ## Gateway hostname endpoint classification (`state.go`:
`hostnameEndpoints`) -/

/-- Record `structs.CheckServiceNode`, reduced to what `hostnameEndpoints` reads:
the datacenter of the node and the two possible results of `BestAddress`
(LAN and WAN).  `tag` distinguishes otherwise equal instances. -/
structure CheckServiceNode where
  nodeDatacenter : String
  bestAddressLan : String
  bestAddressWan : String
  tag : Nat
deriving Repr, DecidableEq

/-- Method `CheckServiceNode.BestAddress(wan)`, reduced to its result. -/
def bestAddress (n : CheckServiceNode) (wan : Bool) : String :=
  if wan then n.bestAddressWan else n.bestAddressLan

def splitOnDot : List Char → List (List Char)
  | [] => [[]]
  | c :: rest =>
      match splitOnDot rest with
      | [] => []
      | f :: fs => if c = '.' then [] :: f :: fs else (c :: f) :: fs

def ipv4FieldValue (cs : List Char) : Nat :=
  cs.foldl (fun a c => a * 10 + (c.toNat - 48)) 0

def ipv4FieldOk (cs : List Char) : Bool :=
  !cs.isEmpty && cs.all Char.isDigit && decide (ipv4FieldValue cs ≤ 255)

/-- Modelled from the Go standard library: acceptance of `net.ParseIP`.
Dotted-quad IPv4 (four run-of-digit fields with value at most 255) or an
IPv6 literal, recognized by the presence of a colon. -/
def goParseIPOk (s : String) : Bool :=
  (let fs := splitOnDot s.toList
   decide (fs.length = 4) && fs.all ipv4FieldOk) || s.toList.contains ':'

/-- The accumulation loop of `hostnameEndpoints`: `(hasIP, hasHostname,
resp)` over the node list, keeping input order for the kept nodes. -/
def hostnameScan (isIP : String → Bool) (localDC : String) :
    List CheckServiceNode → Bool × Bool × List CheckServiceNode
  | [] => (false, false, [])
  | n :: rest =>
      let r := hostnameScan isIP localDC rest
      if isIP (bestAddress n (localDC != n.nodeDatacenter)) then
        (true, r.2.1, r.2.2)
      else
        (r.1, true, n :: r.2.2)

/-- Function `hostnameEndpoints` from `state.go`, parametric in the embedded
`net.ParseIP` acceptance predicate.  Returns the kept nodes and whether the
mixed hostname/IP warning was logged. -/
def hostnameEndpoints (isIP : String → Bool) (localDC : String)
    (nodes : List CheckServiceNode) : List CheckServiceNode × Bool :=
  let r := hostnameScan isIP localDC nodes
  (r.2.2, r.1 && r.2.1)

/-! ## Ingress gateway leaf-cert DNS SANs (`state.go`:
`generateIngressDNSSANs`, `watchIngressLeafCert`) -/

/-- Record `DNSConfig` from `state.go`. -/
structure DNSConfig where
  domain : String
  altDomain : String
deriving Repr, DecidableEq

/-- Record `IngressListenerKey` from the ingress snapshot. -/
structure IngressListenerKey where
  protocol : String
  port : Nat
deriving Repr, DecidableEq

/-- Record `configSnapshotIngressGateway`, reduced to the fields read by the
leaf-cert watch path.  The upstreams-by-listener Go map is an association
list; `leafCertWatchCancel` holds the identity of the active leaf watch
context, if any. -/
structure IngressGatewaySnap where
  tlsEnabled : Bool
  tlsSet : Bool
  hostsSet : Bool
  hosts : List String
  upstreams : List (IngressListenerKey × List UpstreamDef)
  leafCertWatchCancel : Option Nat
deriving Repr, DecidableEq

/-- Constant `structs.IntentionDefaultNamespace`. -/
def intentionDefaultNamespace : String := "default"

def insertUniqueStr (xs : List String) (x : String) : List String :=
  if xs.contains x then xs else xs ++ [x]

/-- The `namespaces` set built by `generateIngressDNSSANs`, in first-seen
order (the Go map iteration order is arbitrary; the set is what matters). -/
def upstreamNamespaces (ups : List (IngressListenerKey × List UpstreamDef)) :
    List String :=
  ups.foldl
    (fun acc kv => kv.2.foldl (fun a u => insertUniqueStr a u.destinationNamespace) acc)
    []

/-- The namespace label used in a SAN: the default namespace is emitted with
no prefix, others with a trailing dot. -/
def ingressNsLabel (ns0 : String) : String :=
  if ns0 = intentionDefaultNamespace then "" else ns0 ++ "."

/-- The SAN entries contributed by one namespace: the wildcard pair against
the primary domain, then (when an alt-domain is configured) the same pair
against the alt-domain. -/
def sansForNamespace (cfg : DNSConfig) (dc : String) (ns0 : String) :
    List String :=
  let ns := ingressNsLabel ns0
  ["*.ingress." ++ ns ++ cfg.domain,
   "*.ingress." ++ ns ++ dc ++ "." ++ cfg.domain] ++
  (if cfg.altDomain ≠ "" then
    ["*.ingress." ++ ns ++ cfg.altDomain,
     "*.ingress." ++ ns ++ dc ++ "." ++ cfg.altDomain]
   else [])

/-- Function `generateIngressDNSSANs` from `state.go`: nothing when TLS is disabled;
otherwise the per-namespace wildcard SANs followed by all configured
hosts. -/
def generateIngressDNSSANs (cfg : DNSConfig) (dc : String)
    (snap : IngressGatewaySnap) : List String :=
  if !snap.tlsEnabled then []
  else
    ((upstreamNamespaces snap.upstreams).map (sansForNamespace cfg dc)).flatten ++
      snap.hosts

/-- Observable actions of `watchIngressLeafCert`. -/
inductive LeafWatchAction
  | cancelPrior (h : Nat)
  | openLeaf (dnssan : List String)
deriving Repr, DecidableEq

/-- Function `watchIngressLeafCert` from `state.go`: a no-op unless both `TLSSet`
and `HostsSet`; otherwise cancels any prior leaf watch and re-issues the
leaf watch carrying the generated DNS SANs, storing the fresh cancel
handle. -/
def watchIngressLeafCert (cfg : DNSConfig) (dc : String) (nextHandle : Nat)
    (snap : IngressGatewaySnap) : IngressGatewaySnap × List LeafWatchAction :=
  if !snap.tlsSet || !snap.hostsSet then (snap, [])
  else
    let cancels :=
      match snap.leafCertWatchCancel with
      | some h => [LeafWatchAction.cancelPrior h]
      | none => []
    ({ snap with leafCertWatchCancel := some nextHandle },
     cancels ++ [LeafWatchAction.openLeaf (generateIngressDNSSANs cfg dc snap)])

/-- The ingress snapshot of the literal SAN scenario: TLS enabled, one
upstream in namespace `web`, hosts `[api.example.com]`. -/
def ingressExampleSnap : IngressGatewaySnap :=
  { tlsEnabled := true, tlsSet := true, hostsSet := true,
    hosts := ["api.example.com"],
    upstreams := [(⟨"http", 8080⟩, [⟨"", "db", "web", ""⟩])],
    leafCertWatchCancel := none }

/-! ## Association-list model of Go maps -/

/-- Lookup in a Go map modelled as an association list: the most recently
inserted binding wins. -/
def gmGet {α : Type} : List (String × α) → String → Option α
  | [], _ => none
  | (k, v) :: rest, key => if key = k then some v else gmGet rest key

/-- Insertion (`m[k] = v`). -/
def gmInsert {α : Type} (m : List (String × α)) (k : String) (v : α) :
    List (String × α) :=
  (k, v) :: m

/-- Restriction of a Go map to the keys satisfying `p` (deletion of all
other keys). -/
def gmRestrict {α : Type} (m : List (String × α)) (p : String → Bool) :
    List (String × α) :=
  m.filter (fun kv => p kv.1)

/-! ## Snapshot validity, deep clone, and the on-demand request channel
(`state.go`: `state.run`, `state.CurrentSnapshot`) -/

/-- Modelled from the spec: `ConfigSnapshot` (its definition lives in
`snapshot.go`, which is not part of the sources) reduced to what the event
loop reads — the kind-specific validity predicate `Valid()` represented by
its value, an opaque payload standing for all snapshot data, and the
identities of the nested mutable structures (maps, slices) it owns. -/
structure MSnapshot where
  valid : Bool
  payload : Nat
  arena : List Nat
deriving Repr, DecidableEq

/-- Modelled from the spec: `ConfigSnapshot.Clone` (in the absent
`snapshot.go`) deep-copies via `copystructure`: the clone carries equal
data but freshly allocated nested structures, so no identity is shared
with the original. -/
def cloneSnapshot (s : MSnapshot) : MSnapshot :=
  { s with arena := s.arena.map (fun i => i + (s.arena.foldr max 0 + 1)) }

/-- The `replyCh` branch of `state.run`: an invalid snapshot is answered
with the nil sentinel, a valid one with a deep clone. -/
def handleSnapshotRequest (snap : MSnapshot) : Option MSnapshot :=
  if !snap.valid then none
  else some (cloneSnapshot snap)

/-- Method `state.CurrentSnapshot`: sends a reply channel on `reqCh` and returns
what the event loop answers. -/
def currentSnapshot (snap : MSnapshot) : Option MSnapshot :=
  handleSnapshotRequest snap

/-! ## Terminating gateway: gateway-services reconciliation (`state.go`:
`handlerTerminatingGateway.handleUpdate`) -/

/-- Record `structs.GatewayService`, reduced to the linked service name and an
opaque payload for the remaining fields. -/
structure GatewayService where
  service : String
  payload : Nat
deriving Repr, DecidableEq

/-- The `configSnapshotTerminatingGateway` portion touched by the
`gateway-services` case: the five watched-* cancel tables and the mirrored
per-service data maps (payloads opaque). -/
structure TermGwSnap where
  watchedServices : List (String × Unit)
  watchedIntentions : List (String × Unit)
  watchedLeaves : List (String × Unit)
  watchedConfigs : List (String × Unit)
  watchedResolvers : List (String × Unit)
  gatewayServices : List (String × Nat)
  serviceGroups : List (String × Nat)
  serviceLeaves : List (String × Nat)
  serviceConfigs : List (String × Nat)
  serviceResolvers : List (String × Nat)
  serviceResolversSet : List (String × Bool)
  intentions : List (String × Nat)
  hostnameServices : List (String × Nat)
deriving Repr, DecidableEq

/-- The subscriptions a terminating gateway opens or cancels, tagged by the
correlation-id family and the service name. -/
inductive TermGwAction
  | openExternalService (svc : String)
  | openServiceIntentions (svc : String)
  | openServiceLeaf (svc : String)
  | openServiceConfig (svc : String)
  | openServiceResolver (svc : String)
  | cancelExternalService (svc : String)
  | cancelServiceIntentions (svc : String)
  | cancelServiceLeaf (svc : String)
  | cancelServiceConfig (svc : String)
  | cancelServiceResolver (svc : String)
deriving Repr, DecidableEq

/-- One not-yet-watched check of the per-service loop: open the
subscription `a` and store its cancel handle unless the service is already
present in the given watched map. -/
def termGwWatchStep (watched : List (String × Unit)) (k : String)
    (a : TermGwAction) : List (String × Unit) × List TermGwAction :=
  if (gmGet watched k).isNone then (gmInsert watched k (), [a])
  else (watched, [])

/-- The body of the per-service loop of the `gateway-services` case: store
the gateway mapping and open each of the five subscriptions not yet
watched. -/
def termGwAddOne (svc : GatewayService) (snap : TermGwSnap) :
    TermGwSnap × List TermGwAction :=
  let snap := { snap with
    gatewayServices := gmInsert snap.gatewayServices svc.service svc.payload }
  let s1 := termGwWatchStep snap.watchedServices svc.service
    (TermGwAction.openExternalService svc.service)
  let s2 := termGwWatchStep snap.watchedIntentions svc.service
    (TermGwAction.openServiceIntentions svc.service)
  let s3 := termGwWatchStep snap.watchedLeaves svc.service
    (TermGwAction.openServiceLeaf svc.service)
  let s4 := termGwWatchStep snap.watchedConfigs svc.service
    (TermGwAction.openServiceConfig svc.service)
  let s5 := termGwWatchStep snap.watchedResolvers svc.service
    (TermGwAction.openServiceResolver svc.service)
  ({ snap with
      watchedServices := s1.1, watchedIntentions := s2.1, watchedLeaves := s3.1,
      watchedConfigs := s4.1, watchedResolvers := s5.1 },
   s1.2 ++ s2.2 ++ s3.2 ++ s4.2 ++ s5.2)

/-- The per-service loop over the delivered `gateway-services` list. -/
def termGwAdd : List GatewayService → TermGwSnap → TermGwSnap × List TermGwAction
  | [], snap => (snap, [])
  | svc :: rest, snap =>
      let r1 := termGwAddOne svc snap
      let r2 := termGwAdd rest r1.1
      (r2.1, r1.2 ++ r2.2)

/-- The purge loops of the `gateway-services` case: drop gateway and
hostname mappings for services no longer delivered, and for each of the
five watched-* maps cancel and drop the watch and its mirrored data for
services no longer delivered. -/
def termGwPurge (seen : List String) (snap : TermGwSnap) :
    TermGwSnap × List TermGwAction :=
  ({ snap with
      gatewayServices := gmRestrict snap.gatewayServices (fun sn => seen.contains sn),
      hostnameServices := gmRestrict snap.hostnameServices (fun sn => seen.contains sn),
      watchedServices := gmRestrict snap.watchedServices (fun sn => seen.contains sn),
      serviceGroups := gmRestrict snap.serviceGroups
        (fun sn => !((gmGet snap.watchedServices sn).isSome && !(seen.contains sn))),
      watchedLeaves := gmRestrict snap.watchedLeaves (fun sn => seen.contains sn),
      serviceLeaves := gmRestrict snap.serviceLeaves
        (fun sn => !((gmGet snap.watchedLeaves sn).isSome && !(seen.contains sn))),
      watchedConfigs := gmRestrict snap.watchedConfigs (fun sn => seen.contains sn),
      serviceConfigs := gmRestrict snap.serviceConfigs
        (fun sn => !((gmGet snap.watchedConfigs sn).isSome && !(seen.contains sn))),
      watchedResolvers := gmRestrict snap.watchedResolvers (fun sn => seen.contains sn),
      serviceResolvers := gmRestrict snap.serviceResolvers
        (fun sn => !((gmGet snap.watchedResolvers sn).isSome && !(seen.contains sn))),
      serviceResolversSet := gmRestrict snap.serviceResolversSet
        (fun sn => !((gmGet snap.watchedResolvers sn).isSome && !(seen.contains sn))),
      watchedIntentions := gmRestrict snap.watchedIntentions (fun sn => seen.contains sn),
      intentions := gmRestrict snap.intentions
        (fun sn => !((gmGet snap.watchedIntentions sn).isSome && !(seen.contains sn))) },
   ((snap.watchedServices.filter (fun kv => !(seen.contains kv.1))).map
      (fun kv => TermGwAction.cancelExternalService kv.1)) ++
   ((snap.watchedLeaves.filter (fun kv => !(seen.contains kv.1))).map
      (fun kv => TermGwAction.cancelServiceLeaf kv.1)) ++
   ((snap.watchedConfigs.filter (fun kv => !(seen.contains kv.1))).map
      (fun kv => TermGwAction.cancelServiceConfig kv.1)) ++
   ((snap.watchedResolvers.filter (fun kv => !(seen.contains kv.1))).map
      (fun kv => TermGwAction.cancelServiceResolver kv.1)) ++
   ((snap.watchedIntentions.filter (fun kv => !(seen.contains kv.1))).map
      (fun kv => TermGwAction.cancelServiceIntentions kv.1)))

/-- The `gateway-services` case of
`handlerTerminatingGateway.handleUpdate`, error-free path. -/
def handleTermGwGatewayServices (delivered : List GatewayService)
    (snap : TermGwSnap) : TermGwSnap × List TermGwAction :=
  let r1 := termGwAdd delivered snap
  let r2 := termGwPurge (delivered.map GatewayService.service) r1.1
  (r2.1, r1.2 ++ r2.2)

/-- The terminating-gateway snapshot of the literal add/remove scenario:
`svcX` watched in all five maps, with every mirrored entry populated. -/
def termGwExampleSnap : TermGwSnap :=
  { watchedServices := [("svcX", ())], watchedIntentions := [("svcX", ())],
    watchedLeaves := [("svcX", ())], watchedConfigs := [("svcX", ())],
    watchedResolvers := [("svcX", ())],
    gatewayServices := [("svcX", 0)], serviceGroups := [("svcX", 0)],
    serviceLeaves := [("svcX", 0)], serviceConfigs := [("svcX", 0)],
    serviceResolvers := [("svcX", 0)], serviceResolversSet := [("svcX", true)],
    intentions := [("svcX", 0)], hostnameServices := [] }

/-! ## Connect proxy: intention-upstreams reconciliation (`state.go`:
`handlerConnectProxy.handleUpdate`, `intention-upstreams` case) -/

/-- The per-upstream entry of `UpstreamConfig`, reduced to the configured
datacenter plus an opaque payload for the remaining `structs.Upstream`
fields. -/
structure UpstreamCfg where
  datacenter : String
  payload : Nat
deriving Repr, DecidableEq

/-- The `ConfigSnapshotUpstreams` portion that the `intention-upstreams`
case reads and mutates.  The two-level Go maps (`WatchedUpstreams` and
friends) are keyed here by upstream id only, their nested maps opaque
payloads: this case never looks inside them. -/
structure ConnectProxySnap where
  watchedUpstreams : List (String × Nat)
  watchedUpstreamEndpoints : List (String × Nat)
  watchedGateways : List (String × Nat)
  watchedGatewayEndpoints : List (String × Nat)
  watchedDiscoveryChains : List (String × Unit)
  discoveryChain : List (String × Nat)
  upstreamConfig : List (String × UpstreamCfg)
deriving Repr, DecidableEq

inductive ConnectProxyAction
  | openDiscoveryChain (id : String)
  | cancelDiscoveryChain (id : String)
deriving Repr, DecidableEq

/-- Key `structs.NewServiceID(structs.WildcardSpecifier, …).String()`: the key
under which wildcard upstream defaults are stored in `UpstreamConfig`. -/
def wildcardKey : String := "*"

/-- The defaults-adoption step of the per-service loop: a service with no
specific upstream config adopts the wildcard defaults when they exist. -/
def cpAdoptDefaults (svc : String) (snap : ConnectProxySnap) : ConnectProxySnap :=
  if (gmGet snap.upstreamConfig svc).isNone then
    match gmGet snap.upstreamConfig wildcardKey with
    | some defaults =>
        { snap with upstreamConfig := gmInsert snap.upstreamConfig svc defaults }
    | none => snap
  else snap

/-- Function `watchDiscoveryChain` for a connect proxy: a no-op when the chain is
already watched, otherwise opens the `discovery-chain:<id>` subscription
and records the cancel handle. -/
def cpWatchChain (svc : String) (snap : ConnectProxySnap) :
    ConnectProxySnap × List ConnectProxyAction :=
  if (gmGet snap.watchedDiscoveryChains svc).isSome then (snap, [])
  else
    ({ snap with watchedDiscoveryChains := gmInsert snap.watchedDiscoveryChains svc () },
     [ConnectProxyAction.openDiscoveryChain svc])

def cpAddOne (svc : String) (snap : ConnectProxySnap) :
    ConnectProxySnap × List ConnectProxyAction :=
  cpWatchChain svc (cpAdoptDefaults svc snap)

/-- The per-service loop of the `intention-upstreams` case. -/
def cpAdd : List String → ConnectProxySnap → ConnectProxySnap × List ConnectProxyAction
  | [], snap => (snap, [])
  | svc :: rest, snap =>
      let r1 := cpAddOne svc snap
      let r2 := cpAdd rest r1.1
      (r2.1, r1.2 ++ r2.2)

/-- The guard `upstream.Datacenter != "" && upstream.Datacenter != sourceDc`
of every cleanup loop: the entry is pinned to another datacenter. -/
def cpPinned (cfg : List (String × UpstreamCfg)) (sourceDc sn : String) : Bool :=
  match gmGet cfg sn with
  | some u => decide (u.datacenter ≠ "") && decide (u.datacenter ≠ sourceDc)
  | none => false

/-- The cleanup loops of the `intention-upstreams` case: entries neither
seen in the payload nor pinned to another datacenter are dropped from the
four endpoint maps and from `WatchedDiscoveryChains` (cancelling the chain
watch and dropping the stored chain). -/
def cpCleanup (seen : List String) (sourceDc : String)
    (snap : ConnectProxySnap) : ConnectProxySnap × List ConnectProxyAction :=
  let keep := fun sn => cpPinned snap.upstreamConfig sourceDc sn || seen.contains sn
  ({ snap with
      watchedUpstreams := gmRestrict snap.watchedUpstreams keep,
      watchedUpstreamEndpoints := gmRestrict snap.watchedUpstreamEndpoints keep,
      watchedGateways := gmRestrict snap.watchedGateways keep,
      watchedGatewayEndpoints := gmRestrict snap.watchedGatewayEndpoints keep,
      watchedDiscoveryChains := gmRestrict snap.watchedDiscoveryChains keep,
      discoveryChain := gmRestrict snap.discoveryChain
        (fun sn => !((gmGet snap.watchedDiscoveryChains sn).isSome && !(keep sn))) },
   (snap.watchedDiscoveryChains.filter (fun kv => !(keep kv.1))).map
     (fun kv => ConnectProxyAction.cancelDiscoveryChain kv.1))

/-- The `intention-upstreams` case of `handlerConnectProxy.handleUpdate`:
watch discovery chains for every service in the payload, then clean up
stale unpinned entries. -/
def handleIntentionUpstreams (payload : List String) (sourceDc : String)
    (snap : ConnectProxySnap) : ConnectProxySnap × List ConnectProxyAction :=
  let r1 := cpAdd payload snap
  let r2 := cpCleanup payload sourceDc r1.1
  (r2.1, r1.2 ++ r2.2)

/-- The connect-proxy snapshot of the C4 witness: `db` watched with a local
chain, `remote` pinned to datacenter `dc2`. -/
def cpExampleSnap : ConnectProxySnap :=
  { watchedUpstreams := [("db", 0), ("remote", 0)],
    watchedUpstreamEndpoints := [("db", 0), ("remote", 0)],
    watchedGateways := [("db", 0)],
    watchedGatewayEndpoints := [("db", 0)],
    watchedDiscoveryChains := [("db", ()), ("remote", ())],
    discoveryChain := [("db", 0), ("remote", 0)],
    upstreamConfig := [("remote", ⟨"dc2", 0⟩)] }

/-! ## Assembler event loop: coalesce timer and the 1-slot outbound channel
(`state.go`: `state.run`) -/

/-- The observable state of one `state.run` loop: `coalesceTimerSet` is
`coalesceTimer != nil`; `timerPending` that an armed `time.AfterFunc` has
not fired yet; `tokenInFlight` that a fired callback is blocked sending its
token on `sendCh`; `outbound` the contents of the 1-slot `snapCh`. -/
structure RunLoopState where
  snap : MSnapshot
  coalesceTimerSet : Bool
  timerPending : Bool
  tokenInFlight : Bool
  outbound : Option MSnapshot
deriving Repr, DecidableEq

/-- The state right after `Watch` spawns `run`: no timer, empty channel. -/
def RunLoopState.init (snap0 : MSnapshot) : RunLoopState :=
  { snap := snap0, coalesceTimerSet := false, timerPending := false,
    tokenInFlight := false, outbound := none }

/-- The bottom-of-loop check of `state.run`: when the snapshot is valid and
no coalesce timer is armed, arm one for `coalesceTimeout`. -/
def armIfValid (s : RunLoopState) : RunLoopState :=
  if s.snap.valid && !s.coalesceTimerSet then
    { s with coalesceTimerSet := true, timerPending := true }
  else s

/-- The events the loop system can experience: an inbound update handled
without error (the handler leaves the snapshot at `newSnap`), the armed
timer firing, the loop receiving the timer token on `sendCh`, and the
consumer draining `snapCh`. -/
inductive LoopEvent
  | recvUpdate (newSnap : MSnapshot)
  | timerFire
  | recvToken
  | consumerRecv
deriving Repr, DecidableEq

/-- One transition of the `state.run` system, embedded from the `select` of
`state.go`.  On `recvToken` the loop clones the snapshot and attempts the
non-blocking send: into a free slot it succeeds and clears `coalesceTimer`;
into a full slot it takes the `default` branch, which arms a fresh timer
only under the `coalesceTimer == nil` guard.  `none` marks events that
cannot occur in the given state. -/
def runLoopStep (s : RunLoopState) : LoopEvent → Option RunLoopState
  | LoopEvent.recvUpdate ns => some (armIfValid { s with snap := ns })
  | LoopEvent.timerFire =>
      if s.timerPending then
        some { s with timerPending := false, tokenInFlight := true }
      else none
  | LoopEvent.recvToken =>
      if s.tokenInFlight then
        match s.outbound with
        | none =>
            some { s with tokenInFlight := false,
                          outbound := some (cloneSnapshot s.snap),
                          coalesceTimerSet := false }
        | some _ =>
            if s.coalesceTimerSet then some { s with tokenInFlight := false }
            else
              some { s with tokenInFlight := false,
                            coalesceTimerSet := true, timerPending := true }
      else none
  | LoopEvent.consumerRecv =>
      match s.outbound with
      | some _ => some { s with outbound := none }
      | none => none

/-- States reachable from a freshly started loop. -/
inductive RunLoopReachable : RunLoopState → Prop
  | init (snap0 : MSnapshot) : RunLoopReachable (RunLoopState.init snap0)
  | step {s s1 : RunLoopState} {e : LoopEvent} :
      RunLoopReachable s → runLoopStep s e = some s1 → RunLoopReachable s1

/-- The timer-token invariant: while a timer is armed or its token is in
flight the `coalesceTimer` variable is non-nil, and the two never hold at
once (there is at most one outstanding callback). -/
def RunLoopInv (s : RunLoopState) : Prop :=
  ((s.timerPending = true ∨ s.tokenInFlight = true) → s.coalesceTimerSet = true) ∧
  ¬(s.timerPending = true ∧ s.tokenInFlight = true)

/-- The concrete state exhibiting the missed re-arm: reached by delivering
one valid snapshot into the empty channel, then a second valid update and
its timer firing while the first snapshot is still buffered. -/
def runLoopBugState : RunLoopState :=
  { snap := ⟨true, 1, []⟩, coalesceTimerSet := true, timerPending := false,
    tokenInFlight := true, outbound := some ⟨true, 0, []⟩ }

/-! ## Theorems -/

theorem clog_two_scaleThreshold : Nat.clog 2 scaleThreshold = 7 := by
  have h : scaleThreshold = 2 ^ 7 := by norm_num [scaleThreshold]
  rw [h, Nat.clog_pow 2 7 one_lt_two]

theorem clog_two_ge_eight {n : Nat} (hn : 128 < n) : 8 ≤ Nat.clog 2 n := by
  have := (Nat.pow_lt_iff_lt_clog one_lt_two (x := n) (y := 7)).mp (by norm_num; omega)
  omega

theorem scaleFactor_of_gt {n : Nat} (hn : 128 < n) :
    scaleFactor n = Nat.clog 2 n - 6 := by
  have h : ¬ n ≤ scaleThreshold := by
    simp only [scaleThreshold]; omega
  have h8 := clog_two_ge_eight hn
  simp only [scaleFactor, if_neg h, clog_two_scaleThreshold]
  omega

theorem logb_two_128 : Real.logb 2 (128 : ℝ) = 7 := by
  have h : (128 : ℝ) = (2 : ℝ) ^ (7 : ℕ) := by norm_num
  rw [h, Real.logb_pow, Real.logb_self_eq_one (by norm_num)]
  norm_num

/-- C7: the cluster-size scale factor is `1` for `n ≤ 128` and
`⌈log₂ n − log₂ 128⌉ + 1` for `n > 128`; it is monotone non-decreasing, and
`scale 128 = 1`, `scale 256 = 2`, `scale 512 = 3`, `scale 8192 = 7`. -/
theorem scaleFactor_spec :
    (∀ n : Nat, n ≤ 128 → scaleFactor n = 1) ∧
    (∀ n : Nat, 128 < n →
      (scaleFactor n : ℤ) = ⌈Real.logb 2 (n : ℝ) - Real.logb 2 (128 : ℝ)⌉ + 1) ∧
    Monotone scaleFactor ∧
    scaleFactor 128 = 1 ∧ scaleFactor 256 = 2 ∧ scaleFactor 512 = 3 ∧
    scaleFactor 8192 = 7 := by
  have hle : ∀ n : Nat, n ≤ 128 → scaleFactor n = 1 := by
    intro n hn
    simp [scaleFactor, scaleThreshold, hn]
  have hpow : ∀ k n : Nat, n = 2 ^ k → Nat.clog 2 n = k := by
    intro k n hn
    rw [hn, Nat.clog_pow 2 k one_lt_two]
  refine ⟨hle, ?_, ?_, hle 128 le_rfl, ?_, ?_, ?_⟩
  · intro n hn
    have h8 := clog_two_ge_eight hn
    have hceil : ⌈Real.logb 2 (n : ℝ)⌉ = (Nat.clog 2 n : ℤ) := by
      have h1 : ⌈Real.logb ((2 : ℕ) : ℝ) (n : ℝ)⌉ = Int.clog (2 : ℕ) ((n : ℕ) : ℝ) :=
        Real.ceil_logb_natCast (Nat.cast_nonneg n)
      have h2 : Int.clog (2 : ℕ) ((n : ℕ) : ℝ) = Nat.clog 2 n := Int.clog_natCast 2 n
      rw [h2] at h1
      simpa using h1
    rw [scaleFactor_of_gt hn, logb_two_128]
    have : Real.logb 2 (n : ℝ) - 7 = Real.logb 2 (n : ℝ) - ((7 : ℤ) : ℝ) := by norm_num
    rw [this, Int.ceil_sub_int, hceil]
    omega
  · intro a b hab
    by_cases ha : a ≤ 128
    · by_cases hb : b ≤ 128
      · rw [hle a ha, hle b hb]
      · have hb : 128 < b := by omega
        rw [hle a ha, scaleFactor_of_gt hb]
        have := clog_two_ge_eight hb
        omega
    · have ha : 128 < a := by omega
      have hb : 128 < b := by omega
      rw [scaleFactor_of_gt ha, scaleFactor_of_gt hb]
      have := Nat.clog_mono_right 2 hab
      omega
  · rw [scaleFactor_of_gt (by norm_num), hpow 8 256 (by norm_num)]
  · rw [scaleFactor_of_gt (by norm_num), hpow 9 512 (by norm_num)]
  · rw [scaleFactor_of_gt (by norm_num), hpow 13 8192 (by norm_num)]

/-- Witness for C7 at concrete inputs: `scaleFactor 100 = 1` and the ceiling
formula evaluated at `n = 8192`. -/
theorem scaleFactor_spec_witness :
    scaleFactor 100 = 1 ∧
    (scaleFactor 8192 : ℤ) = ⌈Real.logb 2 (8192 : ℝ) - Real.logb 2 (128 : ℝ)⌉ + 1 := by
  refine ⟨scaleFactor_spec.1 100 (by norm_num), ?_⟩
  have h := scaleFactor_spec.2.1 8192 (by norm_num)
  have : ((8192 : ℕ) : ℝ) = (8192 : ℝ) := by norm_num
  rw [this] at h
  exact h

theorem syncerPause_inv (s : SyncerState) : SyncerInv (syncerPause s) := by
  cases hch : s.chPaused with
  | none => simp [SyncerInv, syncerPause, hch]
  | some c => simp [SyncerInv, syncerPause, hch]

theorem syncerResume_inv {s : SyncerState} (h : SyncerInv s) {b : Bool}
    {s1 : SyncerState} (hr : syncerResume s = some (b, s1)) : SyncerInv s1 := by
  by_cases h0 : s.paused = 0
  · simp [syncerResume, h0] at hr
  · by_cases h1 : s.paused - 1 = 0
    · cases hch : s.chPaused with
      | none =>
          exfalso
          exact h0 (h.mpr hch)
      | some c =>
          simp [syncerResume, h0, h1, hch] at hr
          obtain ⟨hb, hs⟩ := hr
          subst hs
          simp [SyncerInv, h1]
    · cases hch : s.chPaused with
      | none =>
          exfalso
          exact h0 (h.mpr hch)
      | some c =>
          simp [syncerResume, h0, h1, hch] at hr
          obtain ⟨hb, hs⟩ := hr
          subst hs
          simp [SyncerInv, h1, hch]

/-- C8: whenever the refcount is positive (Resume has not outnumbered Pause)
and the pause-field invariant holds, `Resume` decrements the refcount and
returns `true` exactly when it reaches zero; on that transition, and only
then, it closes the channel observable via `WaitResume` and fires exactly
one `SyncChanges` trigger.  In particular `Pause` then `Resume` from the
initial state (refcount 0 → 1 → 0) emits exactly one trigger. -/
theorem syncerResume_spec :
    (∀ s : SyncerState, SyncerInv s → 0 < s.paused →
      ∃ b s1, syncerResume s = some (b, s1) ∧
        s1.paused = s.paused - 1 ∧
        (b = true ↔ s.paused = 1) ∧
        (b = true →
          ∃ c, syncerWaitResume s = some c ∧
            s1.closedChans = c :: s.closedChans ∧
            syncerWaitResume s1 = none ∧
            s1.syncChangesTriggers = s.syncChangesTriggers + 1) ∧
        (b = false →
          s1.closedChans = s.closedChans ∧
          syncerWaitResume s1 = syncerWaitResume s ∧
          s1.syncChangesTriggers = s.syncChangesTriggers)) ∧
    (∃ s, syncerRunOps [SyncerOp.pause, SyncerOp.resume] SyncerState.init = some s ∧
      s.syncChangesTriggers = 1) := by
  constructor
  · intro s hinv hp
    have h0 : ¬ s.paused = 0 := by omega
    by_cases h1 : s.paused - 1 = 0
    · cases hch : s.chPaused with
      | none => exact absurd (hinv.mpr hch) h0
      | some c =>
          refine ⟨true,
            { s with paused := s.paused - 1, chPaused := none,
                     closedChans := c :: s.closedChans,
                     syncChangesTriggers := s.syncChangesTriggers + 1 },
            by simp [syncerResume, h0, h1, hch], by simp, ?_, ?_, ?_⟩
          · simp; omega
          · intro _
            exact ⟨c, by simp [syncerWaitResume, hch], by simp,
              by simp [syncerWaitResume], by simp⟩
          · intro h; simp at h
    · cases hch : s.chPaused with
      | none => exact absurd (hinv.mpr hch) h0
      | some c =>
          refine ⟨false, { s with paused := s.paused - 1 },
            by simp [syncerResume, h0, h1, hch], by simp, ?_, ?_, ?_⟩
          · simp; omega
          · intro h; simp at h
          · intro _
            exact ⟨by simp, by simp [syncerWaitResume], by simp⟩
  · exact ⟨⟨0, none, 1, [0], 1⟩, by decide, rfl⟩

/-- Witness for C8: instantiating the theorem at a paused state with
refcount 2. -/
theorem syncerResume_spec_witness :
    ∃ b s1, syncerResume syncerStateTwo = some (b, s1) ∧
      s1.paused = syncerStateTwo.paused - 1 ∧
      (b = true ↔ syncerStateTwo.paused = 1) ∧
      (b = true →
        ∃ c, syncerWaitResume syncerStateTwo = some c ∧
          s1.closedChans = c :: syncerStateTwo.closedChans ∧
          syncerWaitResume s1 = none ∧
          s1.syncChangesTriggers = syncerStateTwo.syncChangesTriggers + 1) ∧
      (b = false →
        s1.closedChans = syncerStateTwo.closedChans ∧
        syncerWaitResume s1 = syncerWaitResume syncerStateTwo ∧
        s1.syncChangesTriggers = syncerStateTwo.syncChangesTriggers) :=
  syncerResume_spec.1 syncerStateTwo (by constructor <;> intro h <;> simp_all [syncerStateTwo])
    (by norm_num [syncerStateTwo])

theorem fullSyncLoop_startWait_head (cfg : SyncerConfig) (o : SyncOracle)
    (fuel : Nat) (events : List SyncEvent) (i d : Nat) (hd : d ≠ 0) :
    (fullSyncLoop cfg o (fuel + 1) events i d).1.head? =
      some (SyncAction.startWait d) := by
  cases events with
  | nil => simp [fullSyncLoop, hd]
  | cons e rest => cases e <;> simp [fullSyncLoop, hd]

/-- C9: entering `fullSync` with delay 0 first schedules the next periodic
full sync for `Interval + Jitter(Interval)`; when paused it does not call
`SyncFull` and instead waits `retryFailInterval + Jitter(retryFailInterval)`
before retrying; otherwise it calls `SyncFull`, returns on success, and
waits the same retry delay on failure. -/
theorem fullSync_delay_zero_spec (cfg : SyncerConfig) (o : SyncOracle)
    (fuel : Nat) (events : List SyncEvent)
    (hret : 0 < cfg.retryFailInterval) :
    ∃ tl out,
      fullSyncLoop cfg o (fuel + 2) events 0 0 =
        (SyncAction.scheduleNextFullSync (cfg.interval + o.jitter cfg.interval) :: tl,
          out) ∧
      (o.pausedAt 0 = true →
        tl.head? = some (SyncAction.startWait
          (cfg.retryFailInterval + o.jitter cfg.retryFailInterval)) ∧
        ∀ b, tl.head? ≠ some (SyncAction.callSyncFull b)) ∧
      (o.pausedAt 0 = false → o.syncOkAt 0 = true →
        tl = [SyncAction.callSyncFull true] ∧ out = SyncOutcome.success) ∧
      (o.pausedAt 0 = false → o.syncOkAt 0 = false →
        tl.head? = some (SyncAction.callSyncFull false) ∧
        tl.tail.head? = some (SyncAction.startWait
          (cfg.retryFailInterval + o.jitter cfg.retryFailInterval))) := by
  have hd : cfg.retryFailInterval + o.jitter cfg.retryFailInterval ≠ 0 := by omega
  by_cases hp : o.pausedAt 0
  · refine ⟨(fullSyncLoop cfg o (fuel + 1) events 1
        (cfg.retryFailInterval + o.jitter cfg.retryFailInterval)).1,
      (fullSyncLoop cfg o (fuel + 1) events 1
        (cfg.retryFailInterval + o.jitter cfg.retryFailInterval)).2, ?_, ?_, ?_, ?_⟩
    · simp [fullSyncLoop, hp]
    · intro _
      rw [fullSyncLoop_startWait_head cfg o fuel events 1 _ hd]
      simp
    · intro h; rw [hp] at h; cases h
    · intro h; rw [hp] at h; cases h
  · simp only [Bool.not_eq_true] at hp
    by_cases hok : o.syncOkAt 0
    · refine ⟨[SyncAction.callSyncFull true], SyncOutcome.success, ?_, ?_, ?_, ?_⟩
      · simp [fullSyncLoop, hp, hok]
      · intro h; rw [hp] at h; cases h
      · intro _ _; exact ⟨rfl, rfl⟩
      · intro _ h; rw [hok] at h; cases h
    · simp only [Bool.not_eq_true] at hok
      refine ⟨SyncAction.callSyncFull false ::
        (fullSyncLoop cfg o (fuel + 1) events 1
          (cfg.retryFailInterval + o.jitter cfg.retryFailInterval)).1,
        (fullSyncLoop cfg o (fuel + 1) events 1
          (cfg.retryFailInterval + o.jitter cfg.retryFailInterval)).2, ?_, ?_, ?_, ?_⟩
      · simp [fullSyncLoop, hp, hok]
      · intro h; rw [hp] at h; cases h
      · intro _ h; rw [hok] at h; cases h
      · intro _ _
        refine ⟨rfl, ?_⟩
        simpa using fullSyncLoop_startWait_head cfg o fuel events 1 _ hd

/-- Witness for C9 at a concrete configuration and oracle. -/
theorem fullSync_delay_zero_spec_witness :
    ∃ tl out,
      fullSyncLoop ⟨60, 3, 15⟩ ⟨fun b => b / 3, fun _ => false, fun _ => true⟩ 2 [] 0 0 =
        (SyncAction.scheduleNextFullSync (60 + 60 / 3) :: tl, out) ∧
      ((false : Bool) = true →
        tl.head? = some (SyncAction.startWait (15 + 15 / 3)) ∧
        ∀ b, tl.head? ≠ some (SyncAction.callSyncFull b)) ∧
      ((false : Bool) = false → (true : Bool) = true →
        tl = [SyncAction.callSyncFull true] ∧ out = SyncOutcome.success) ∧
      ((false : Bool) = false → (true : Bool) = false →
        tl.head? = some (SyncAction.callSyncFull false) ∧
        tl.tail.head? = some (SyncAction.startWait (15 + 15 / 3))) :=
  fullSync_delay_zero_spec ⟨60, 3, 15⟩ ⟨fun b => b / 3, fun _ => false, fun _ => true⟩
    0 [] (by norm_num)

/-- C10: `Changed` with an absent (nil) registration returns `true` for
every stored service instance and every token. -/
theorem stateChanged_nil (s : ServiceInstance) (token : String) :
    stateChanged s none token = true := rfl

theorem hostnameScan_spec (isIP : String → Bool) (localDC : String)
    (nodes : List CheckServiceNode) :
    hostnameScan isIP localDC nodes =
      (nodes.any (fun n => isIP (bestAddress n (localDC != n.nodeDatacenter))),
       nodes.any (fun n => !(isIP (bestAddress n (localDC != n.nodeDatacenter)))),
       nodes.filter (fun n => !(isIP (bestAddress n (localDC != n.nodeDatacenter))))) := by
  induction nodes with
  | nil => rfl
  | cons n rest ih =>
      by_cases h : isIP (bestAddress n (localDC != n.nodeDatacenter)) = true
      · simp [hostnameScan, ih, h]
      · simp only [Bool.not_eq_true] at h
        simp [hostnameScan, ih, h]

/-- C6: for every endpoint list, the gateway hostname-endpoint
classification keeps exactly the instances whose best address (under the
local-dc vs remote-dc rule) is not an IP, and warns exactly when the input
mixes IP addresses and DNS names; in particular, for endpoints
`{10.0.0.1, host.example}` only `host.example` is kept and a warning is
emitted. -/
theorem hostnameEndpoints_spec :
    (∀ (isIP : String → Bool) (localDC : String)
        (nodes : List CheckServiceNode),
      (hostnameEndpoints isIP localDC nodes).1 =
        nodes.filter
          (fun n => !(isIP (bestAddress n (localDC != n.nodeDatacenter)))) ∧
      ((hostnameEndpoints isIP localDC nodes).2 = true ↔
        ((∃ n ∈ nodes, isIP (bestAddress n (localDC != n.nodeDatacenter)) = true) ∧
         (∃ n ∈ nodes, isIP (bestAddress n (localDC != n.nodeDatacenter)) = false)))) ∧
    hostnameEndpoints goParseIPOk "dc1"
        [⟨"dc1", "10.0.0.1", "10.0.0.1", 0⟩, ⟨"dc1", "host.example", "host.example", 1⟩] =
      ([⟨"dc1", "host.example", "host.example", 1⟩], true) := by
  constructor
  · intro isIP localDC nodes
    constructor
    · simp [hostnameEndpoints, hostnameScan_spec]
    · simp [hostnameEndpoints, hostnameScan_spec, List.any_eq_true]
  · rfl

theorem mem_sansForNamespace (cfg : DNSConfig) (dc : String) (ns0 s : String) :
    s ∈ sansForNamespace cfg dc ns0 ↔
      (s = "*.ingress." ++ ingressNsLabel ns0 ++ cfg.domain ∨
       s = "*.ingress." ++ ingressNsLabel ns0 ++ dc ++ "." ++ cfg.domain ∨
       (cfg.altDomain ≠ "" ∧
         (s = "*.ingress." ++ ingressNsLabel ns0 ++ cfg.altDomain ∨
          s = "*.ingress." ++ ingressNsLabel ns0 ++ dc ++ "." ++ cfg.altDomain))) := by
  by_cases h : cfg.altDomain = ""
  · simp [sansForNamespace, h]
  · simp [sansForNamespace, h]

/-- C5: with TLS enabled, every re-issued leaf watch carries exactly the
generated DNS SANs: for each namespace among the listener upstreams the
wildcard pair against the domain and (if configured) the alt-domain — the
default namespace with no prefix — followed by the configured hosts; in the
literal scenario (domain `consul`, alt-domain `example.com`, one upstream
in namespace `web`, dc `dc1`, hosts `[api.example.com]`) the list is
exactly the five expected entries. -/
theorem generateIngressDNSSANs_spec :
    (∀ (cfg : DNSConfig) (dc : String) (snap : IngressGatewaySnap)
        (nextHandle : Nat),
      snap.tlsEnabled = true → snap.tlsSet = true → snap.hostsSet = true →
      (watchIngressLeafCert cfg dc nextHandle snap).2.getLast? =
        some (LeafWatchAction.openLeaf (generateIngressDNSSANs cfg dc snap)) ∧
      (∀ s, s ∈ generateIngressDNSSANs cfg dc snap ↔
        ((∃ ns0 ∈ upstreamNamespaces snap.upstreams,
            s ∈ sansForNamespace cfg dc ns0) ∨ s ∈ snap.hosts))) ∧
    (watchIngressLeafCert ⟨"consul", "example.com"⟩ "dc1" 7 ingressExampleSnap).2 =
      [LeafWatchAction.openLeaf
        ["*.ingress.web.consul", "*.ingress.web.dc1.consul",
         "*.ingress.web.example.com", "*.ingress.web.dc1.example.com",
         "api.example.com"]] := by
  constructor
  · intro cfg dc snap nextHandle htls htlsSet dhosts
    constructor
    · cases hc : snap.leafCertWatchCancel with
      | none => simp [watchIngressLeafCert, htlsSet, dhosts, hc]
      | some h => simp [watchIngressLeafCert, htlsSet, dhosts, hc]
    · intro s
      simp [generateIngressDNSSANs, htls, List.mem_flatten]
  · rfl

/-- Witness for C5: the general clause instantiated at the literal
scenario. -/
theorem generateIngressDNSSANs_spec_witness :
    (watchIngressLeafCert ⟨"consul", "example.com"⟩ "dc1" 7 ingressExampleSnap).2.getLast? =
      some (LeafWatchAction.openLeaf
        (generateIngressDNSSANs ⟨"consul", "example.com"⟩ "dc1" ingressExampleSnap)) ∧
    (∀ s, s ∈ generateIngressDNSSANs ⟨"consul", "example.com"⟩ "dc1" ingressExampleSnap ↔
      ((∃ ns0 ∈ upstreamNamespaces ingressExampleSnap.upstreams,
          s ∈ sansForNamespace ⟨"consul", "example.com"⟩ "dc1" ns0) ∨
        s ∈ ingressExampleSnap.hosts)) :=
  generateIngressDNSSANs_spec.1 ⟨"consul", "example.com"⟩ "dc1" ingressExampleSnap 7
    rfl rfl rfl

theorem gmGet_insert {α : Type} (m : List (String × α)) (k : String) (v : α)
    (key : String) :
    gmGet (gmInsert m k v) key = if key = k then some v else gmGet m key := by
  simp [gmInsert, gmGet]

theorem gmGet_filter {α : Type} (p : String → Bool) (m : List (String × α))
    (key : String) :
    gmGet (m.filter (fun kv => p kv.1)) key =
      if p key then gmGet m key else none := by
  induction m with
  | nil => simp [gmGet]
  | cons kv rest ih =>
      obtain ⟨k, v⟩ := kv
      by_cases hp : p k = true
      · by_cases hk : key = k
        · subst hk
          simp [gmGet, hp, ih]
        · simp [gmGet, hp, hk, ih]
      · simp only [Bool.not_eq_true] at hp
        by_cases hk : key = k
        · subst hk
          simp [gmGet, hp, ih]
        · simp [gmGet, hp, hk, ih]

theorem gmGet_restrict {α : Type} (m : List (String × α)) (p : String → Bool)
    (key : String) :
    gmGet (gmRestrict m p) key = if p key then gmGet m key else none :=
  gmGet_filter p m key

theorem le_foldr_max (l : List Nat) : ∀ x ∈ l, x ≤ l.foldr max 0 := by
  induction l with
  | nil => intro x hx; cases hx
  | cons a rest ih =>
      intro x hx
      rcases List.mem_cons.mp hx with h | h
      · subst h; exact le_max_left _ _
      · exact le_trans (ih x h) (le_max_right _ _)

theorem cloneSnapshot_arena_disjoint (s : MSnapshot) :
    ∀ i ∈ (cloneSnapshot s).arena, i ∉ s.arena := by
  intro i hi hmem
  simp only [cloneSnapshot, List.mem_map] at hi
  obtain ⟨j, hj, rfl⟩ := hi
  have h1 := le_foldr_max s.arena _ hmem
  omega

/-- C2: every on-demand snapshot request is answered with the nil sentinel
when the snapshot is not valid, and otherwise with a deep clone — equal
data, no nested structure shared with the internal snapshot. -/
theorem currentSnapshot_spec (snap : MSnapshot) :
    (snap.valid = false → currentSnapshot snap = none) ∧
    (snap.valid = true → ∃ c, currentSnapshot snap = some c ∧
      c.valid = snap.valid ∧ c.payload = snap.payload ∧
      ∀ i ∈ c.arena, i ∉ snap.arena) := by
  constructor
  · intro h
    simp [currentSnapshot, handleSnapshotRequest, h]
  · intro h
    refine ⟨cloneSnapshot snap, ?_, rfl, rfl, cloneSnapshot_arena_disjoint snap⟩
    simp [currentSnapshot, handleSnapshotRequest, h]

/-- Witness for C2: the request branch evaluated on one invalid and one
valid snapshot. -/
theorem currentSnapshot_spec_witness :
    (currentSnapshot ⟨false, 3, [0, 1]⟩ = none) ∧
    (∃ c, currentSnapshot ⟨true, 3, [0, 1]⟩ = some c ∧
      c.valid = MSnapshot.valid ⟨true, 3, [0, 1]⟩ ∧
      c.payload = MSnapshot.payload ⟨true, 3, [0, 1]⟩ ∧
      ∀ i ∈ c.arena, i ∉ MSnapshot.arena ⟨true, 3, [0, 1]⟩) :=
  ⟨(currentSnapshot_spec ⟨false, 3, [0, 1]⟩).1 rfl,
   (currentSnapshot_spec ⟨true, 3, [0, 1]⟩).2 rfl⟩

theorem gmGet_isSome_mem {α : Type} (m : List (String × α)) (sn : String)
    (h : (gmGet m sn).isSome = true) : ∃ v, (sn, v) ∈ m := by
  induction m with
  | nil => simp [gmGet] at h
  | cons kv rest ih =>
      obtain ⟨k, v⟩ := kv
      by_cases hk : sn = k
      · subst hk; exact ⟨v, by simp⟩
      · simp only [gmGet, if_neg hk] at h
        obtain ⟨v1, hv⟩ := ih h
        exact ⟨v1, by simp [hv]⟩

theorem termGwWatchStep_get (w : List (String × Unit)) (k : String)
    (a : TermGwAction) (sn : String) :
    ((gmGet (termGwWatchStep w k a).1 sn).isSome = true ↔
      (sn = k ∨ (gmGet w sn).isSome = true)) := by
  by_cases h : gmGet w k = none
  · by_cases hk : sn = k
    · subst hk; simp [termGwWatchStep, h, gmGet_insert]
    · simp [termGwWatchStep, h, gmGet_insert, hk]
  · obtain ⟨v, hv⟩ := Option.ne_none_iff_exists'.mp h
    by_cases hk : sn = k
    · subst hk; simp [termGwWatchStep, hv]
    · simp [termGwWatchStep, hv, hk]

theorem termGwWatchStep_act (w : List (String × Unit)) (k : String)
    (a : TermGwAction) (h : gmGet w k = none) :
    (termGwWatchStep w k a).2 = [a] := by
  simp [termGwWatchStep, h]

theorem termGwWatchStep_none (w : List (String × Unit)) (k : String)
    (a : TermGwAction) (sn : String) (hsv : sn ≠ k)
    (h : gmGet w sn = none) : gmGet (termGwWatchStep w k a).1 sn = none := by
  rw [← Option.not_isSome_iff_eq_none]
  intro hs
  rcases (termGwWatchStep_get w k a sn).mp hs with h1 | h1
  · exact hsv h1
  · rw [h] at h1; cases h1

theorem termGwAddOne_watched (svc : GatewayService) (snap : TermGwSnap)
    (sn : String) :
    ((gmGet (termGwAddOne svc snap).1.watchedServices sn).isSome = true ↔
      (sn = svc.service ∨ (gmGet snap.watchedServices sn).isSome = true)) ∧
    ((gmGet (termGwAddOne svc snap).1.watchedIntentions sn).isSome = true ↔
      (sn = svc.service ∨ (gmGet snap.watchedIntentions sn).isSome = true)) ∧
    ((gmGet (termGwAddOne svc snap).1.watchedLeaves sn).isSome = true ↔
      (sn = svc.service ∨ (gmGet snap.watchedLeaves sn).isSome = true)) ∧
    ((gmGet (termGwAddOne svc snap).1.watchedConfigs sn).isSome = true ↔
      (sn = svc.service ∨ (gmGet snap.watchedConfigs sn).isSome = true)) ∧
    ((gmGet (termGwAddOne svc snap).1.watchedResolvers sn).isSome = true ↔
      (sn = svc.service ∨ (gmGet snap.watchedResolvers sn).isSome = true)) :=
  ⟨termGwWatchStep_get _ _ _ _, termGwWatchStep_get _ _ _ _,
   termGwWatchStep_get _ _ _ _, termGwWatchStep_get _ _ _ _,
   termGwWatchStep_get _ _ _ _⟩

theorem termGwAddOne_opens (svc : GatewayService) (snap : TermGwSnap) :
    (gmGet snap.watchedServices svc.service = none →
      TermGwAction.openExternalService svc.service ∈ (termGwAddOne svc snap).2) ∧
    (gmGet snap.watchedIntentions svc.service = none →
      TermGwAction.openServiceIntentions svc.service ∈ (termGwAddOne svc snap).2) ∧
    (gmGet snap.watchedLeaves svc.service = none →
      TermGwAction.openServiceLeaf svc.service ∈ (termGwAddOne svc snap).2) ∧
    (gmGet snap.watchedConfigs svc.service = none →
      TermGwAction.openServiceConfig svc.service ∈ (termGwAddOne svc snap).2) ∧
    (gmGet snap.watchedResolvers svc.service = none →
      TermGwAction.openServiceResolver svc.service ∈ (termGwAddOne svc snap).2) := by
  refine ⟨fun h => ?_, fun h => ?_, fun h => ?_, fun h => ?_, fun h => ?_⟩ <;>
  · show _ ∈ (termGwWatchStep snap.watchedServices svc.service _).2 ++
        (termGwWatchStep snap.watchedIntentions svc.service _).2 ++
        (termGwWatchStep snap.watchedLeaves svc.service _).2 ++
        (termGwWatchStep snap.watchedConfigs svc.service _).2 ++
        (termGwWatchStep snap.watchedResolvers svc.service _).2
    rw [termGwWatchStep_act _ _ _ h]
    simp

theorem termGwAdd_watched (l : List GatewayService) (snap : TermGwSnap)
    (sn : String) :
    ((gmGet (termGwAdd l snap).1.watchedServices sn).isSome = true ↔
      (sn ∈ l.map GatewayService.service ∨
        (gmGet snap.watchedServices sn).isSome = true)) ∧
    ((gmGet (termGwAdd l snap).1.watchedIntentions sn).isSome = true ↔
      (sn ∈ l.map GatewayService.service ∨
        (gmGet snap.watchedIntentions sn).isSome = true)) ∧
    ((gmGet (termGwAdd l snap).1.watchedLeaves sn).isSome = true ↔
      (sn ∈ l.map GatewayService.service ∨
        (gmGet snap.watchedLeaves sn).isSome = true)) ∧
    ((gmGet (termGwAdd l snap).1.watchedConfigs sn).isSome = true ↔
      (sn ∈ l.map GatewayService.service ∨
        (gmGet snap.watchedConfigs sn).isSome = true)) ∧
    ((gmGet (termGwAdd l snap).1.watchedResolvers sn).isSome = true ↔
      (sn ∈ l.map GatewayService.service ∨
        (gmGet snap.watchedResolvers sn).isSome = true)) := by
  induction l generalizing snap with
  | nil => simp [termGwAdd]
  | cons svc rest ih =>
      obtain ⟨h1a, h1b, h1c, h1d, h1e⟩ := termGwAddOne_watched svc snap sn
      obtain ⟨h2a, h2b, h2c, h2d, h2e⟩ := ih (termGwAddOne svc snap).1
      simp only [termGwAdd, List.map_cons, List.mem_cons]
      have hsh : ∀ {A B C : Prop}, (A ∨ (B ∨ C)) ↔ ((B ∨ A) ∨ C) := by
        intro A B C
        constructor
        · rintro (h | h | h)
          · exact Or.inl (Or.inr h)
          · exact Or.inl (Or.inl h)
          · exact Or.inr h
        · rintro ((h | h) | h)
          · exact Or.inr (Or.inl h)
          · exact Or.inl h
          · exact Or.inr (Or.inr h)
      refine ⟨?_, ?_, ?_, ?_, ?_⟩
      · rw [h2a, h1a]; exact hsh
      · rw [h2b, h1b]; exact hsh
      · rw [h2c, h1c]; exact hsh
      · rw [h2d, h1d]; exact hsh
      · rw [h2e, h1e]; exact hsh

theorem termGwAdd_mirror (l : List GatewayService) (snap : TermGwSnap) :
    (termGwAdd l snap).1.serviceGroups = snap.serviceGroups ∧
    (termGwAdd l snap).1.serviceLeaves = snap.serviceLeaves ∧
    (termGwAdd l snap).1.serviceConfigs = snap.serviceConfigs ∧
    (termGwAdd l snap).1.serviceResolvers = snap.serviceResolvers ∧
    (termGwAdd l snap).1.serviceResolversSet = snap.serviceResolversSet ∧
    (termGwAdd l snap).1.intentions = snap.intentions ∧
    (termGwAdd l snap).1.hostnameServices = snap.hostnameServices := by
  induction l generalizing snap with
  | nil => exact ⟨rfl, rfl, rfl, rfl, rfl, rfl, rfl⟩
  | cons svc rest ih =>
      obtain ⟨ha, hb, hc, hd, he, hf, hg⟩ := ih (termGwAddOne svc snap).1
      exact ⟨ha, hb, hc, hd, he, hf, hg⟩

theorem termGwAdd_opens (l : List GatewayService) (snap : TermGwSnap)
    (sn : String) (hsn : sn ∈ l.map GatewayService.service) :
    (gmGet snap.watchedServices sn = none →
      TermGwAction.openExternalService sn ∈ (termGwAdd l snap).2) ∧
    (gmGet snap.watchedIntentions sn = none →
      TermGwAction.openServiceIntentions sn ∈ (termGwAdd l snap).2) ∧
    (gmGet snap.watchedLeaves sn = none →
      TermGwAction.openServiceLeaf sn ∈ (termGwAdd l snap).2) ∧
    (gmGet snap.watchedConfigs sn = none →
      TermGwAction.openServiceConfig sn ∈ (termGwAdd l snap).2) ∧
    (gmGet snap.watchedResolvers sn = none →
      TermGwAction.openServiceResolver sn ∈ (termGwAdd l snap).2) := by
  induction l generalizing snap with
  | nil => cases hsn
  | cons svc rest ih =>
      by_cases hsv : sn = svc.service
      · subst hsv
        obtain ⟨o1, o2, o3, o4, o5⟩ := termGwAddOne_opens svc snap
        simp only [termGwAdd, List.mem_append]
        exact ⟨fun h => Or.inl (o1 h), fun h => Or.inl (o2 h),
          fun h => Or.inl (o3 h), fun h => Or.inl (o4 h),
          fun h => Or.inl (o5 h)⟩
      · have hmem : sn ∈ rest.map GatewayService.service := by
          rw [List.map_cons] at hsn
          rcases List.mem_cons.mp hsn with h | h
          · exact absurd h hsv
          · exact h
        obtain ⟨i1, i2, i3, i4, i5⟩ := ih (termGwAddOne svc snap).1 hmem
        simp only [termGwAdd, List.mem_append]
        exact ⟨fun h => Or.inr (i1 (termGwWatchStep_none _ _ _ _ hsv h)),
          fun h => Or.inr (i2 (termGwWatchStep_none _ _ _ _ hsv h)),
          fun h => Or.inr (i3 (termGwWatchStep_none _ _ _ _ hsv h)),
          fun h => Or.inr (i4 (termGwWatchStep_none _ _ _ _ hsv h)),
          fun h => Or.inr (i5 (termGwWatchStep_none _ _ _ _ hsv h))⟩

theorem termGwPurge_watched (seen : List String) (t : TermGwSnap) (sn : String) :
    gmGet (termGwPurge seen t).1.watchedServices sn =
      (if seen.contains sn then gmGet t.watchedServices sn else none) ∧
    gmGet (termGwPurge seen t).1.watchedIntentions sn =
      (if seen.contains sn then gmGet t.watchedIntentions sn else none) ∧
    gmGet (termGwPurge seen t).1.watchedLeaves sn =
      (if seen.contains sn then gmGet t.watchedLeaves sn else none) ∧
    gmGet (termGwPurge seen t).1.watchedConfigs sn =
      (if seen.contains sn then gmGet t.watchedConfigs sn else none) ∧
    gmGet (termGwPurge seen t).1.watchedResolvers sn =
      (if seen.contains sn then gmGet t.watchedResolvers sn else none) := by
  refine ⟨?_, ?_, ?_, ?_, ?_⟩ <;>
  · simp only [termGwPurge]
    rw [gmGet_restrict]

theorem termGwPurge_mirror (seen : List String) (t : TermGwSnap) (sn : String)
    (hc : sn ∉ seen) :
    ((gmGet t.watchedServices sn).isSome = true →
      gmGet (termGwPurge seen t).1.serviceGroups sn = none) ∧
    ((gmGet t.watchedLeaves sn).isSome = true →
      gmGet (termGwPurge seen t).1.serviceLeaves sn = none) ∧
    ((gmGet t.watchedConfigs sn).isSome = true →
      gmGet (termGwPurge seen t).1.serviceConfigs sn = none) ∧
    ((gmGet t.watchedResolvers sn).isSome = true →
      gmGet (termGwPurge seen t).1.serviceResolvers sn = none) ∧
    ((gmGet t.watchedResolvers sn).isSome = true →
      gmGet (termGwPurge seen t).1.serviceResolversSet sn = none) ∧
    ((gmGet t.watchedIntentions sn).isSome = true →
      gmGet (termGwPurge seen t).1.intentions sn = none) ∧
    gmGet (termGwPurge seen t).1.gatewayServices sn = none ∧
    gmGet (termGwPurge seen t).1.hostnameServices sn = none := by
  refine ⟨fun h => ?_, fun h => ?_, fun h => ?_, fun h => ?_, fun h => ?_,
    fun h => ?_, ?_, ?_⟩ <;>
  · simp only [termGwPurge]
    rw [gmGet_restrict]
    simp_all

theorem termGwPurge_cancels (seen : List String) (t : TermGwSnap) (sn : String)
    (hc : sn ∉ seen) :
    ((gmGet t.watchedServices sn).isSome = true →
      TermGwAction.cancelExternalService sn ∈ (termGwPurge seen t).2) ∧
    ((gmGet t.watchedLeaves sn).isSome = true →
      TermGwAction.cancelServiceLeaf sn ∈ (termGwPurge seen t).2) ∧
    ((gmGet t.watchedConfigs sn).isSome = true →
      TermGwAction.cancelServiceConfig sn ∈ (termGwPurge seen t).2) ∧
    ((gmGet t.watchedResolvers sn).isSome = true →
      TermGwAction.cancelServiceResolver sn ∈ (termGwPurge seen t).2) ∧
    ((gmGet t.watchedIntentions sn).isSome = true →
      TermGwAction.cancelServiceIntentions sn ∈ (termGwPurge seen t).2) := by
  refine ⟨fun h => ?_, fun h => ?_, fun h => ?_, fun h => ?_, fun h => ?_⟩
  · obtain ⟨v, hv⟩ := gmGet_isSome_mem _ _ h
    have hf : (sn, v) ∈ t.watchedServices.filter (fun kv => !(seen.contains kv.1)) :=
      List.mem_filter.mpr ⟨hv, by simp [hc]⟩
    have hm : TermGwAction.cancelExternalService sn ∈
        (t.watchedServices.filter (fun kv => !(seen.contains kv.1))).map
          (fun kv => TermGwAction.cancelExternalService kv.1) :=
      List.mem_map.mpr ⟨(sn, v), hf, rfl⟩
    exact List.mem_append_left _ (List.mem_append_left _
      (List.mem_append_left _ (List.mem_append_left _ hm)))
  · obtain ⟨v, hv⟩ := gmGet_isSome_mem _ _ h
    have hf : (sn, v) ∈ t.watchedLeaves.filter (fun kv => !(seen.contains kv.1)) :=
      List.mem_filter.mpr ⟨hv, by simp [hc]⟩
    have hm : TermGwAction.cancelServiceLeaf sn ∈
        (t.watchedLeaves.filter (fun kv => !(seen.contains kv.1))).map
          (fun kv => TermGwAction.cancelServiceLeaf kv.1) :=
      List.mem_map.mpr ⟨(sn, v), hf, rfl⟩
    exact List.mem_append_left _ (List.mem_append_left _
      (List.mem_append_left _ (List.mem_append_right _ hm)))
  · obtain ⟨v, hv⟩ := gmGet_isSome_mem _ _ h
    have hf : (sn, v) ∈ t.watchedConfigs.filter (fun kv => !(seen.contains kv.1)) :=
      List.mem_filter.mpr ⟨hv, by simp [hc]⟩
    have hm : TermGwAction.cancelServiceConfig sn ∈
        (t.watchedConfigs.filter (fun kv => !(seen.contains kv.1))).map
          (fun kv => TermGwAction.cancelServiceConfig kv.1) :=
      List.mem_map.mpr ⟨(sn, v), hf, rfl⟩
    exact List.mem_append_left _ (List.mem_append_left _ (List.mem_append_right _ hm))
  · obtain ⟨v, hv⟩ := gmGet_isSome_mem _ _ h
    have hf : (sn, v) ∈ t.watchedResolvers.filter (fun kv => !(seen.contains kv.1)) :=
      List.mem_filter.mpr ⟨hv, by simp [hc]⟩
    have hm : TermGwAction.cancelServiceResolver sn ∈
        (t.watchedResolvers.filter (fun kv => !(seen.contains kv.1))).map
          (fun kv => TermGwAction.cancelServiceResolver kv.1) :=
      List.mem_map.mpr ⟨(sn, v), hf, rfl⟩
    exact List.mem_append_left _ (List.mem_append_right _ hm)
  · obtain ⟨v, hv⟩ := gmGet_isSome_mem _ _ h
    have hf : (sn, v) ∈ t.watchedIntentions.filter (fun kv => !(seen.contains kv.1)) :=
      List.mem_filter.mpr ⟨hv, by simp [hc]⟩
    have hm : TermGwAction.cancelServiceIntentions sn ∈
        (t.watchedIntentions.filter (fun kv => !(seen.contains kv.1))).map
          (fun kv => TermGwAction.cancelServiceIntentions kv.1) :=
      List.mem_map.mpr ⟨(sn, v), hf, rfl⟩
    exact List.mem_append_right _ hm

/-- C3: after every error-free terminating-gateway `gateway-services`
update, the key sets of the five watched-* maps equal the delivered service
set; every service newly appearing in the delivered list has its five
subscriptions (external-service, service-intentions, service-leaf,
service-config, service-resolver) opened; every service no longer delivered
has those five subscriptions cancelled and all of its mirrored entries
(GatewayServices, HostnameServices, ServiceGroups, ServiceLeaves,
ServiceConfigs, ServiceResolvers with the resolvers-set flag, Intentions)
purged. -/
theorem handleTermGwGatewayServices_spec (delivered : List GatewayService)
    (snap : TermGwSnap) (sn : String) :
    (((gmGet (handleTermGwGatewayServices delivered snap).1.watchedServices sn).isSome =
        true ↔ sn ∈ delivered.map GatewayService.service) ∧
     ((gmGet (handleTermGwGatewayServices delivered snap).1.watchedIntentions sn).isSome =
        true ↔ sn ∈ delivered.map GatewayService.service) ∧
     ((gmGet (handleTermGwGatewayServices delivered snap).1.watchedLeaves sn).isSome =
        true ↔ sn ∈ delivered.map GatewayService.service) ∧
     ((gmGet (handleTermGwGatewayServices delivered snap).1.watchedConfigs sn).isSome =
        true ↔ sn ∈ delivered.map GatewayService.service) ∧
     ((gmGet (handleTermGwGatewayServices delivered snap).1.watchedResolvers sn).isSome =
        true ↔ sn ∈ delivered.map GatewayService.service)) ∧
    (sn ∈ delivered.map GatewayService.service →
      (gmGet snap.watchedServices sn = none →
        TermGwAction.openExternalService sn ∈
          (handleTermGwGatewayServices delivered snap).2) ∧
      (gmGet snap.watchedIntentions sn = none →
        TermGwAction.openServiceIntentions sn ∈
          (handleTermGwGatewayServices delivered snap).2) ∧
      (gmGet snap.watchedLeaves sn = none →
        TermGwAction.openServiceLeaf sn ∈
          (handleTermGwGatewayServices delivered snap).2) ∧
      (gmGet snap.watchedConfigs sn = none →
        TermGwAction.openServiceConfig sn ∈
          (handleTermGwGatewayServices delivered snap).2) ∧
      (gmGet snap.watchedResolvers sn = none →
        TermGwAction.openServiceResolver sn ∈
          (handleTermGwGatewayServices delivered snap).2)) ∧
    (sn ∉ delivered.map GatewayService.service →
      gmGet (handleTermGwGatewayServices delivered snap).1.gatewayServices sn = none ∧
      gmGet (handleTermGwGatewayServices delivered snap).1.hostnameServices sn = none ∧
      ((gmGet snap.watchedServices sn).isSome = true →
        TermGwAction.cancelExternalService sn ∈
          (handleTermGwGatewayServices delivered snap).2 ∧
        gmGet (handleTermGwGatewayServices delivered snap).1.serviceGroups sn = none) ∧
      ((gmGet snap.watchedLeaves sn).isSome = true →
        TermGwAction.cancelServiceLeaf sn ∈
          (handleTermGwGatewayServices delivered snap).2 ∧
        gmGet (handleTermGwGatewayServices delivered snap).1.serviceLeaves sn = none) ∧
      ((gmGet snap.watchedConfigs sn).isSome = true →
        TermGwAction.cancelServiceConfig sn ∈
          (handleTermGwGatewayServices delivered snap).2 ∧
        gmGet (handleTermGwGatewayServices delivered snap).1.serviceConfigs sn = none) ∧
      ((gmGet snap.watchedResolvers sn).isSome = true →
        TermGwAction.cancelServiceResolver sn ∈
          (handleTermGwGatewayServices delivered snap).2 ∧
        gmGet (handleTermGwGatewayServices delivered snap).1.serviceResolvers sn = none ∧
        gmGet (handleTermGwGatewayServices delivered snap).1.serviceResolversSet sn = none) ∧
      ((gmGet snap.watchedIntentions sn).isSome = true →
        TermGwAction.cancelServiceIntentions sn ∈
          (handleTermGwGatewayServices delivered snap).2 ∧
        gmGet (handleTermGwGatewayServices delivered snap).1.intentions sn = none)) := by
  have hadd := termGwAdd_watched delivered snap sn
  have hpw := termGwPurge_watched (delivered.map GatewayService.service)
    (termGwAdd delivered snap).1 sn
  refine ⟨⟨?_, ?_, ?_, ?_, ?_⟩, fun hmem => ?_, fun hnot => ?_⟩
  · show (gmGet (termGwPurge _ (termGwAdd delivered snap).1).1.watchedServices sn).isSome = true ↔ _
    rw [hpw.1]
    by_cases hm : sn ∈ delivered.map GatewayService.service
    · simp only [if_pos (List.elem_iff.mpr hm)]
      rw [hadd.1]
      simp [hm]
    · have : (delivered.map GatewayService.service).contains sn = false := by
        cases hcc : (delivered.map GatewayService.service).contains sn with
        | false => rfl
        | true => exact absurd (List.elem_iff.mp hcc) hm
      simp [this, hm]
  · show (gmGet (termGwPurge _ (termGwAdd delivered snap).1).1.watchedIntentions sn).isSome = true ↔ _
    rw [hpw.2.1]
    by_cases hm : sn ∈ delivered.map GatewayService.service
    · simp only [if_pos (List.elem_iff.mpr hm)]
      rw [hadd.2.1]
      simp [hm]
    · have : (delivered.map GatewayService.service).contains sn = false := by
        cases hcc : (delivered.map GatewayService.service).contains sn with
        | false => rfl
        | true => exact absurd (List.elem_iff.mp hcc) hm
      simp [this, hm]
  · show (gmGet (termGwPurge _ (termGwAdd delivered snap).1).1.watchedLeaves sn).isSome = true ↔ _
    rw [hpw.2.2.1]
    by_cases hm : sn ∈ delivered.map GatewayService.service
    · simp only [if_pos (List.elem_iff.mpr hm)]
      rw [hadd.2.2.1]
      simp [hm]
    · have : (delivered.map GatewayService.service).contains sn = false := by
        cases hcc : (delivered.map GatewayService.service).contains sn with
        | false => rfl
        | true => exact absurd (List.elem_iff.mp hcc) hm
      simp [this, hm]
  · show (gmGet (termGwPurge _ (termGwAdd delivered snap).1).1.watchedConfigs sn).isSome = true ↔ _
    rw [hpw.2.2.2.1]
    by_cases hm : sn ∈ delivered.map GatewayService.service
    · simp only [if_pos (List.elem_iff.mpr hm)]
      rw [hadd.2.2.2.1]
      simp [hm]
    · have : (delivered.map GatewayService.service).contains sn = false := by
        cases hcc : (delivered.map GatewayService.service).contains sn with
        | false => rfl
        | true => exact absurd (List.elem_iff.mp hcc) hm
      simp [this, hm]
  · show (gmGet (termGwPurge _ (termGwAdd delivered snap).1).1.watchedResolvers sn).isSome = true ↔ _
    rw [hpw.2.2.2.2]
    by_cases hm : sn ∈ delivered.map GatewayService.service
    · simp only [if_pos (List.elem_iff.mpr hm)]
      rw [hadd.2.2.2.2]
      simp [hm]
    · have : (delivered.map GatewayService.service).contains sn = false := by
        cases hcc : (delivered.map GatewayService.service).contains sn with
        | false => rfl
        | true => exact absurd (List.elem_iff.mp hcc) hm
      simp [this, hm]
  · obtain ⟨o1, o2, o3, o4, o5⟩ := termGwAdd_opens delivered snap sn hmem
    exact ⟨fun h => List.mem_append_left _ (o1 h),
      fun h => List.mem_append_left _ (o2 h),
      fun h => List.mem_append_left _ (o3 h),
      fun h => List.mem_append_left _ (o4 h),
      fun h => List.mem_append_left _ (o5 h)⟩
  · obtain ⟨m1, m2, m3, m4, m5, m6, m7, m8⟩ :=
      termGwPurge_mirror (delivered.map GatewayService.service)
        (termGwAdd delivered snap).1 sn hnot
    obtain ⟨c1, c2, c3, c4, c5⟩ :=
      termGwPurge_cancels (delivered.map GatewayService.service)
        (termGwAdd delivered snap).1 sn hnot
    refine ⟨m7, m8, fun h => ?_, fun h => ?_, fun h => ?_, fun h => ?_, fun h => ?_⟩
    · have h1 : (gmGet (termGwAdd delivered snap).1.watchedServices sn).isSome = true :=
        (hadd.1).mpr (Or.inr h)
      exact ⟨List.mem_append_right _ (c1 h1), m1 h1⟩
    · have h1 : (gmGet (termGwAdd delivered snap).1.watchedLeaves sn).isSome = true :=
        (hadd.2.2.1).mpr (Or.inr h)
      exact ⟨List.mem_append_right _ (c2 h1), m2 h1⟩
    · have h1 : (gmGet (termGwAdd delivered snap).1.watchedConfigs sn).isSome = true :=
        (hadd.2.2.2.1).mpr (Or.inr h)
      exact ⟨List.mem_append_right _ (c3 h1), m3 h1⟩
    · have h1 : (gmGet (termGwAdd delivered snap).1.watchedResolvers sn).isSome = true :=
        (hadd.2.2.2.2).mpr (Or.inr h)
      exact ⟨List.mem_append_right _ (c4 h1), m4 h1, m5 h1⟩
    · have h1 : (gmGet (termGwAdd delivered snap).1.watchedIntentions sn).isSome = true :=
        (hadd.2.1).mpr (Or.inr h)
      exact ⟨List.mem_append_right _ (c5 h1), m6 h1⟩

/-- Witness for C3: delivering `[svcY]` over a steady state watching `svcX`
opens the five svcY subscriptions and cancels/purges svcX. -/
theorem handleTermGwGatewayServices_spec_witness :
    (TermGwAction.openExternalService "svcY" ∈
      (handleTermGwGatewayServices [⟨"svcY", 1⟩] termGwExampleSnap).2) ∧
    (TermGwAction.openServiceLeaf "svcY" ∈
      (handleTermGwGatewayServices [⟨"svcY", 1⟩] termGwExampleSnap).2) ∧
    ((gmGet (handleTermGwGatewayServices [⟨"svcY", 1⟩] termGwExampleSnap).1.watchedServices
        "svcY").isSome = true ↔
      "svcY" ∈ ([⟨"svcY", 1⟩] : List GatewayService).map GatewayService.service) ∧
    (TermGwAction.cancelExternalService "svcX" ∈
      (handleTermGwGatewayServices [⟨"svcY", 1⟩] termGwExampleSnap).2 ∧
      gmGet (handleTermGwGatewayServices [⟨"svcY", 1⟩] termGwExampleSnap).1.serviceGroups
        "svcX" = none) ∧
    (TermGwAction.cancelServiceResolver "svcX" ∈
      (handleTermGwGatewayServices [⟨"svcY", 1⟩] termGwExampleSnap).2 ∧
      gmGet (handleTermGwGatewayServices [⟨"svcY", 1⟩] termGwExampleSnap).1.serviceResolvers
        "svcX" = none ∧
      gmGet (handleTermGwGatewayServices [⟨"svcY", 1⟩] termGwExampleSnap).1.serviceResolversSet
        "svcX" = none) :=
  ⟨((handleTermGwGatewayServices_spec [⟨"svcY", 1⟩] termGwExampleSnap "svcY").2.1
      (by decide)).1 (by decide),
   ((handleTermGwGatewayServices_spec [⟨"svcY", 1⟩] termGwExampleSnap "svcY").2.1
      (by decide)).2.2.1 (by decide),
   (handleTermGwGatewayServices_spec [⟨"svcY", 1⟩] termGwExampleSnap "svcY").1.1,
   ((handleTermGwGatewayServices_spec [⟨"svcY", 1⟩] termGwExampleSnap "svcX").2.2
      (by decide)).2.2.1 (by decide),
   ((handleTermGwGatewayServices_spec [⟨"svcY", 1⟩] termGwExampleSnap "svcX").2.2
      (by decide)).2.2.2.2.2.1 (by decide)⟩

theorem cpAdoptDefaults_unseen (svc : String) (snap : ConnectProxySnap)
    (sn : String) (h : sn ≠ svc) :
    gmGet (cpAdoptDefaults svc snap).upstreamConfig sn =
      gmGet snap.upstreamConfig sn := by
  by_cases h1 : (gmGet snap.upstreamConfig svc).isNone
  · cases hm : gmGet snap.upstreamConfig wildcardKey with
    | none => simp [cpAdoptDefaults, h1, hm]
    | some d => simp [cpAdoptDefaults, h1, hm, gmGet_insert, h]
  · simp [cpAdoptDefaults, h1]

theorem cpAdoptDefaults_other (svc : String) (snap : ConnectProxySnap) :
    (cpAdoptDefaults svc snap).watchedUpstreams = snap.watchedUpstreams ∧
    (cpAdoptDefaults svc snap).watchedUpstreamEndpoints = snap.watchedUpstreamEndpoints ∧
    (cpAdoptDefaults svc snap).watchedGateways = snap.watchedGateways ∧
    (cpAdoptDefaults svc snap).watchedGatewayEndpoints = snap.watchedGatewayEndpoints ∧
    (cpAdoptDefaults svc snap).watchedDiscoveryChains = snap.watchedDiscoveryChains ∧
    (cpAdoptDefaults svc snap).discoveryChain = snap.discoveryChain := by
  by_cases h1 : (gmGet snap.upstreamConfig svc).isNone
  · cases hm : gmGet snap.upstreamConfig wildcardKey with
    | none => simp [cpAdoptDefaults, h1, hm]
    | some d => simp [cpAdoptDefaults, h1, hm]
  · simp [cpAdoptDefaults, h1]

theorem cpWatchChain_other (svc : String) (snap : ConnectProxySnap) :
    (cpWatchChain svc snap).1.watchedUpstreams = snap.watchedUpstreams ∧
    (cpWatchChain svc snap).1.watchedUpstreamEndpoints = snap.watchedUpstreamEndpoints ∧
    (cpWatchChain svc snap).1.watchedGateways = snap.watchedGateways ∧
    (cpWatchChain svc snap).1.watchedGatewayEndpoints = snap.watchedGatewayEndpoints ∧
    (cpWatchChain svc snap).1.discoveryChain = snap.discoveryChain ∧
    (cpWatchChain svc snap).1.upstreamConfig = snap.upstreamConfig := by
  by_cases h1 : (gmGet snap.watchedDiscoveryChains svc).isSome
  · simp [cpWatchChain, h1]
  · simp [cpWatchChain, h1]

theorem cpWatchChain_chains_unseen (svc : String) (snap : ConnectProxySnap)
    (sn : String) (h : sn ≠ svc) :
    gmGet (cpWatchChain svc snap).1.watchedDiscoveryChains sn =
      gmGet snap.watchedDiscoveryChains sn := by
  by_cases h1 : (gmGet snap.watchedDiscoveryChains svc).isSome
  · simp [cpWatchChain, h1]
  · simp [cpWatchChain, h1, gmGet_insert, h]

theorem cpWatchChain_acts (svc : String) (snap : ConnectProxySnap) :
    ∀ a ∈ (cpWatchChain svc snap).2, a = ConnectProxyAction.openDiscoveryChain svc := by
  by_cases h1 : (gmGet snap.watchedDiscoveryChains svc).isSome
  · simp [cpWatchChain, h1]
  · simp [cpWatchChain, h1]

theorem cpAdd_unseen (l : List String) (snap : ConnectProxySnap) (sn : String)
    (h : sn ∉ l) :
    (cpAdd l snap).1.watchedUpstreams = snap.watchedUpstreams ∧
    (cpAdd l snap).1.watchedUpstreamEndpoints = snap.watchedUpstreamEndpoints ∧
    (cpAdd l snap).1.watchedGateways = snap.watchedGateways ∧
    (cpAdd l snap).1.watchedGatewayEndpoints = snap.watchedGatewayEndpoints ∧
    (cpAdd l snap).1.discoveryChain = snap.discoveryChain ∧
    gmGet (cpAdd l snap).1.upstreamConfig sn = gmGet snap.upstreamConfig sn ∧
    gmGet (cpAdd l snap).1.watchedDiscoveryChains sn =
      gmGet snap.watchedDiscoveryChains sn := by
  induction l generalizing snap with
  | nil => exact ⟨rfl, rfl, rfl, rfl, rfl, rfl, rfl⟩
  | cons svc rest ih =>
      have hsv : sn ≠ svc := fun he => h (he ▸ List.mem_cons_self svc rest)
      have hrest : sn ∉ rest := fun he => h (List.mem_cons_of_mem svc he)
      obtain ⟨a1, a2, a3, a4, a5, a6, a7⟩ := ih (cpAddOne svc snap).1 hrest
      obtain ⟨b1, b2, b3, b4, b5, b6⟩ := cpWatchChain_other svc (cpAdoptDefaults svc snap)
      obtain ⟨c1, c2, c3, c4, c5, c6⟩ := cpAdoptDefaults_other svc snap
      refine ⟨?_, ?_, ?_, ?_, ?_, ?_, ?_⟩
      · exact a1.trans (b1.trans c1)
      · exact a2.trans (b2.trans c2)
      · exact a3.trans (b3.trans c3)
      · exact a4.trans (b4.trans c4)
      · exact a5.trans (b5.trans c6)
      · show gmGet (cpAdd rest (cpAddOne svc snap).1).1.upstreamConfig sn = _
        rw [a6]
        show gmGet (cpWatchChain svc (cpAdoptDefaults svc snap)).1.upstreamConfig sn = _
        rw [b6]
        exact cpAdoptDefaults_unseen svc snap sn hsv
      · show gmGet (cpAdd rest (cpAddOne svc snap).1).1.watchedDiscoveryChains sn = _
        rw [a7]
        show gmGet (cpWatchChain svc (cpAdoptDefaults svc snap)).1.watchedDiscoveryChains sn = _
        rw [cpWatchChain_chains_unseen svc _ sn hsv, c5]

theorem cpAdd_acts (l : List String) (snap : ConnectProxySnap) :
    ∀ a ∈ (cpAdd l snap).2, ∃ id, a = ConnectProxyAction.openDiscoveryChain id := by
  induction l generalizing snap with
  | nil => intro a ha; cases ha
  | cons svc rest ih =>
      intro a ha
      rcases List.mem_append.mp ha with h | h
      · exact ⟨svc, cpWatchChain_acts svc _ a h⟩
      · exact ih (cpAddOne svc snap).1 a h

theorem cpCleanup_purged (seen : List String) (sourceDc : String)
    (snap : ConnectProxySnap) (sn : String)
    (hpin : cpPinned snap.upstreamConfig sourceDc sn = false)
    (hnot : sn ∉ seen) :
    gmGet (cpCleanup seen sourceDc snap).1.watchedUpstreams sn = none ∧
    gmGet (cpCleanup seen sourceDc snap).1.watchedUpstreamEndpoints sn = none ∧
    gmGet (cpCleanup seen sourceDc snap).1.watchedGateways sn = none ∧
    gmGet (cpCleanup seen sourceDc snap).1.watchedGatewayEndpoints sn = none ∧
    gmGet (cpCleanup seen sourceDc snap).1.watchedDiscoveryChains sn = none ∧
    ((gmGet snap.watchedDiscoveryChains sn).isSome = true →
      gmGet (cpCleanup seen sourceDc snap).1.discoveryChain sn = none ∧
      ConnectProxyAction.cancelDiscoveryChain sn ∈ (cpCleanup seen sourceDc snap).2) := by
  refine ⟨?_, ?_, ?_, ?_, ?_, fun h => ⟨?_, ?_⟩⟩
  · simp [cpCleanup, gmGet_restrict, hpin, hnot]
  · simp [cpCleanup, gmGet_restrict, hpin, hnot]
  · simp [cpCleanup, gmGet_restrict, hpin, hnot]
  · simp [cpCleanup, gmGet_restrict, hpin, hnot]
  · simp [cpCleanup, gmGet_restrict, hpin, hnot]
  · simp [cpCleanup, gmGet_restrict, hpin, hnot, h]
    intro h2
    rw [h2] at h
    cases h
  · obtain ⟨v, hv⟩ := gmGet_isSome_mem _ _ h
    have hf : (sn, v) ∈ snap.watchedDiscoveryChains.filter
        (fun kv => !(cpPinned snap.upstreamConfig sourceDc kv.1 || seen.contains kv.1)) :=
      List.mem_filter.mpr ⟨hv, by simp [hpin, hnot]⟩
    exact List.mem_map.mpr ⟨(sn, v), hf, rfl⟩

theorem cpCleanup_kept (seen : List String) (sourceDc : String)
    (snap : ConnectProxySnap) (sn : String)
    (hpin : cpPinned snap.upstreamConfig sourceDc sn = true) :
    gmGet (cpCleanup seen sourceDc snap).1.watchedUpstreams sn =
      gmGet snap.watchedUpstreams sn ∧
    gmGet (cpCleanup seen sourceDc snap).1.watchedUpstreamEndpoints sn =
      gmGet snap.watchedUpstreamEndpoints sn ∧
    gmGet (cpCleanup seen sourceDc snap).1.watchedGateways sn =
      gmGet snap.watchedGateways sn ∧
    gmGet (cpCleanup seen sourceDc snap).1.watchedGatewayEndpoints sn =
      gmGet snap.watchedGatewayEndpoints sn ∧
    gmGet (cpCleanup seen sourceDc snap).1.watchedDiscoveryChains sn =
      gmGet snap.watchedDiscoveryChains sn ∧
    gmGet (cpCleanup seen sourceDc snap).1.discoveryChain sn =
      gmGet snap.discoveryChain sn ∧
    ConnectProxyAction.cancelDiscoveryChain sn ∉ (cpCleanup seen sourceDc snap).2 := by
  refine ⟨?_, ?_, ?_, ?_, ?_, ?_, ?_⟩
  · simp [cpCleanup, gmGet_restrict, hpin]
  · simp [cpCleanup, gmGet_restrict, hpin]
  · simp [cpCleanup, gmGet_restrict, hpin]
  · simp [cpCleanup, gmGet_restrict, hpin]
  · simp [cpCleanup, gmGet_restrict, hpin]
  · simp [cpCleanup, gmGet_restrict, hpin]
  · intro hmem
    simp only [cpCleanup, List.mem_map, List.mem_filter] at hmem
    obtain ⟨kv, ⟨_, hkv⟩, heq⟩ := hmem
    have hk1 : kv.1 = sn := by
      cases heq
      rfl
    rw [hk1, hpin] at hkv
    simp at hkv

/-- C4: on every intention-upstreams update for a transparent-mode connect
proxy, an entry whose key is absent from the payload and whose configured
upstream datacenter is empty (or missing) or equals the source datacenter
is purged from the four endpoint maps plus `WatchedDiscoveryChains` and, if
a chain watch existed, that watch is cancelled and the stored chain
dropped; entries pinned to a different datacenter are kept untouched and
not cancelled. -/
theorem handleIntentionUpstreams_spec (payload : List String)
    (sourceDc : String) (snap : ConnectProxySnap) (sn : String)
    (hnot : sn ∉ payload) :
    (cpPinned snap.upstreamConfig sourceDc sn = false →
      gmGet (handleIntentionUpstreams payload sourceDc snap).1.watchedUpstreams sn = none ∧
      gmGet (handleIntentionUpstreams payload sourceDc snap).1.watchedUpstreamEndpoints sn = none ∧
      gmGet (handleIntentionUpstreams payload sourceDc snap).1.watchedGateways sn = none ∧
      gmGet (handleIntentionUpstreams payload sourceDc snap).1.watchedGatewayEndpoints sn = none ∧
      gmGet (handleIntentionUpstreams payload sourceDc snap).1.watchedDiscoveryChains sn = none ∧
      ((gmGet snap.watchedDiscoveryChains sn).isSome = true →
        gmGet (handleIntentionUpstreams payload sourceDc snap).1.discoveryChain sn = none ∧
        ConnectProxyAction.cancelDiscoveryChain sn ∈
          (handleIntentionUpstreams payload sourceDc snap).2)) ∧
    (cpPinned snap.upstreamConfig sourceDc sn = true →
      gmGet (handleIntentionUpstreams payload sourceDc snap).1.watchedUpstreams sn =
        gmGet snap.watchedUpstreams sn ∧
      gmGet (handleIntentionUpstreams payload sourceDc snap).1.watchedUpstreamEndpoints sn =
        gmGet snap.watchedUpstreamEndpoints sn ∧
      gmGet (handleIntentionUpstreams payload sourceDc snap).1.watchedGateways sn =
        gmGet snap.watchedGateways sn ∧
      gmGet (handleIntentionUpstreams payload sourceDc snap).1.watchedGatewayEndpoints sn =
        gmGet snap.watchedGatewayEndpoints sn ∧
      gmGet (handleIntentionUpstreams payload sourceDc snap).1.watchedDiscoveryChains sn =
        gmGet snap.watchedDiscoveryChains sn ∧
      gmGet (handleIntentionUpstreams payload sourceDc snap).1.discoveryChain sn =
        gmGet snap.discoveryChain sn ∧
      ConnectProxyAction.cancelDiscoveryChain sn ∉
        (handleIntentionUpstreams payload sourceDc snap).2) := by
  obtain ⟨u1, u2, u3, u4, u5, u6, u7⟩ := cpAdd_unseen payload snap sn hnot
  have hpin1 : cpPinned (cpAdd payload snap).1.upstreamConfig sourceDc sn =
      cpPinned snap.upstreamConfig sourceDc sn := by
    simp only [cpPinned, u6]
  constructor
  · intro hpin
    obtain ⟨p1, p2, p3, p4, p5, p6⟩ :=
      cpCleanup_purged payload sourceDc (cpAdd payload snap).1 sn
        (by rw [hpin1]; exact hpin) hnot
    refine ⟨p1, p2, p3, p4, p5, fun h => ?_⟩
    have h1 : (gmGet (cpAdd payload snap).1.watchedDiscoveryChains sn).isSome = true := by
      rw [u7]; exact h
    exact ⟨(p6 h1).1, List.mem_append_right _ (p6 h1).2⟩
  · intro hpin
    obtain ⟨k1, k2, k3, k4, k5, k6, k7⟩ :=
      cpCleanup_kept payload sourceDc (cpAdd payload snap).1 sn
        (by rw [hpin1]; exact hpin)
    refine ⟨?_, ?_, ?_, ?_, ?_, ?_, ?_⟩
    · exact k1.trans (by rw [u1])
    · exact k2.trans (by rw [u2])
    · exact k3.trans (by rw [u3])
    · exact k4.trans (by rw [u4])
    · exact k5.trans u7
    · exact k6.trans (by rw [u5])
    · intro hmem
      rcases List.mem_append.mp hmem with h | h
      · obtain ⟨id, hid⟩ := cpAdd_acts payload snap _ h
        cases hid
      · exact k7 h

/-- Witness for C4: an empty payload purges the unpinned `db` entry and
keeps the `remote` entry pinned to `dc2`. -/
theorem handleIntentionUpstreams_spec_witness :
    (gmGet (handleIntentionUpstreams [] "dc1" cpExampleSnap).1.watchedUpstreams "db" = none ∧
     gmGet (handleIntentionUpstreams [] "dc1" cpExampleSnap).1.watchedUpstreamEndpoints "db" = none ∧
     gmGet (handleIntentionUpstreams [] "dc1" cpExampleSnap).1.watchedGateways "db" = none ∧
     gmGet (handleIntentionUpstreams [] "dc1" cpExampleSnap).1.watchedGatewayEndpoints "db" = none ∧
     gmGet (handleIntentionUpstreams [] "dc1" cpExampleSnap).1.watchedDiscoveryChains "db" = none ∧
     ((gmGet cpExampleSnap.watchedDiscoveryChains "db").isSome = true →
       gmGet (handleIntentionUpstreams [] "dc1" cpExampleSnap).1.discoveryChain "db" = none ∧
       ConnectProxyAction.cancelDiscoveryChain "db" ∈
         (handleIntentionUpstreams [] "dc1" cpExampleSnap).2)) ∧
    (gmGet (handleIntentionUpstreams [] "dc1" cpExampleSnap).1.watchedUpstreams "remote" =
       gmGet cpExampleSnap.watchedUpstreams "remote" ∧
     gmGet (handleIntentionUpstreams [] "dc1" cpExampleSnap).1.watchedUpstreamEndpoints "remote" =
       gmGet cpExampleSnap.watchedUpstreamEndpoints "remote" ∧
     gmGet (handleIntentionUpstreams [] "dc1" cpExampleSnap).1.watchedGateways "remote" =
       gmGet cpExampleSnap.watchedGateways "remote" ∧
     gmGet (handleIntentionUpstreams [] "dc1" cpExampleSnap).1.watchedGatewayEndpoints "remote" =
       gmGet cpExampleSnap.watchedGatewayEndpoints "remote" ∧
     gmGet (handleIntentionUpstreams [] "dc1" cpExampleSnap).1.watchedDiscoveryChains "remote" =
       gmGet cpExampleSnap.watchedDiscoveryChains "remote" ∧
     gmGet (handleIntentionUpstreams [] "dc1" cpExampleSnap).1.discoveryChain "remote" =
       gmGet cpExampleSnap.discoveryChain "remote" ∧
     ConnectProxyAction.cancelDiscoveryChain "remote" ∉
       (handleIntentionUpstreams [] "dc1" cpExampleSnap).2) :=
  ⟨(handleIntentionUpstreams_spec [] "dc1" cpExampleSnap "db" (by decide)).1 (by decide),
   (handleIntentionUpstreams_spec [] "dc1" cpExampleSnap "remote" (by decide)).2 (by decide)⟩

theorem runLoopStep_inv {s s1 : RunLoopState} {e : LoopEvent}
    (hinv : RunLoopInv s) (hstep : runLoopStep s e = some s1) :
    RunLoopInv s1 := by
  obtain ⟨h1, h2⟩ := hinv
  cases e with
  | recvUpdate ns =>
      simp only [runLoopStep, Option.some.injEq] at hstep
      subst hstep
      by_cases hc : (ns.valid && !s.coalesceTimerSet) = true
      · have hset : s.coalesceTimerSet = false := by
          revert hc
          cases s.coalesceTimerSet <;> simp
        have hp : s.timerPending = false := by
          cases hpc : s.timerPending with
          | false => rfl
          | true => rw [h1 (Or.inl hpc)] at hset; cases hset
        have ht : s.tokenInFlight = false := by
          cases htc : s.tokenInFlight with
          | false => rfl
          | true => rw [h1 (Or.inr htc)] at hset; cases hset
        simp [RunLoopInv, armIfValid, hc, ht]
      · have heq : armIfValid { s with snap := ns } = { s with snap := ns } := by
          simp [armIfValid, hc]
        rw [heq]
        exact ⟨h1, h2⟩
  | timerFire =>
      by_cases hp : s.timerPending = true
      · simp only [runLoopStep, if_pos hp, Option.some.injEq] at hstep
        subst hstep
        refine ⟨fun _ => h1 (Or.inl hp), ?_⟩
        simp
      · simp [runLoopStep, hp] at hstep
  | recvToken =>
      by_cases ht : s.tokenInFlight = true
      · have hset : s.coalesceTimerSet = true := h1 (Or.inr ht)
        have hp : s.timerPending = false := by
          cases hpc : s.timerPending with
          | false => rfl
          | true => exact absurd ⟨hpc, ht⟩ h2
        cases hb : s.outbound with
        | none =>
            simp only [runLoopStep, if_pos ht, hb, Option.some.injEq] at hstep
            subst hstep
            constructor
            · intro hor
              rcases hor with h | h
              · rw [hp] at h; cases h
              · cases h
            · intro hand
              cases hand.2
        | some b =>
            simp only [runLoopStep, if_pos ht, hb, if_pos hset,
              Option.some.injEq] at hstep
            subst hstep
            constructor
            · intro _; exact hset
            · intro hand
              cases hand.2
      · simp [runLoopStep, ht] at hstep
  | consumerRecv =>
      cases hb : s.outbound with
      | none => simp [runLoopStep, hb] at hstep
      | some b =>
          simp only [runLoopStep, hb, Option.some.injEq] at hstep
          subst hstep
          exact ⟨h1, h2⟩

theorem runLoopReachable_inv {s : RunLoopState} (h : RunLoopReachable s) :
    RunLoopInv s := by
  induction h with
  | init snap0 => exact ⟨by simp [RunLoopState.init], by simp [RunLoopState.init]⟩
  | step hr hstep ih => exact runLoopStep_inv ih hstep

/-- C1 (refuting the re-arm part): receiving the coalesce-timer token with
the 1-slot outbound channel full never blocks, leaves the snapshot and the
channel contents unchanged, and the loop continues — but no fresh coalesce
timer is armed: in every reachable state the fired timer's handle is still
stored, so the `coalesceTimer == nil` guard of the `default` branch fails.
Moreover the resulting no-timer configuration persists under every
subsequent event, so a snapshot is never delivered again. -/
theorem run_full_channel_no_rearm :
    (∀ (s : RunLoopState) (b : MSnapshot), RunLoopReachable s →
      s.tokenInFlight = true → s.outbound = some b →
      s.coalesceTimerSet = true ∧
      ∃ s1, runLoopStep s LoopEvent.recvToken = some s1 ∧
        s1.snap = s.snap ∧ s1.outbound = s.outbound ∧
        s1.timerPending = false ∧ s1.coalesceTimerSet = true ∧
        s1.tokenInFlight = false) ∧
    (∀ (s : RunLoopState) (e : LoopEvent) (s1 : RunLoopState),
      s.coalesceTimerSet = true → s.timerPending = false →
      s.tokenInFlight = false → runLoopStep s e = some s1 →
      s1.coalesceTimerSet = true ∧ s1.timerPending = false ∧
      s1.tokenInFlight = false ∧
      (s1.outbound = s.outbound ∨ s1.outbound = none)) := by
  constructor
  · intro s b hr ht hb
    obtain ⟨h1, h2⟩ := runLoopReachable_inv hr
    have hset : s.coalesceTimerSet = true := h1 (Or.inr ht)
    have hp : s.timerPending = false := by
      cases hpc : s.timerPending with
      | false => rfl
      | true => exact absurd ⟨hpc, ht⟩ h2
    refine ⟨hset, { s with tokenInFlight := false }, ?_, rfl, rfl, hp, hset, rfl⟩
    simp [runLoopStep, ht, hb, hset]
  · intro s e s1 hset hp ht hstep
    cases e with
    | recvUpdate ns =>
        simp only [runLoopStep, Option.some.injEq] at hstep
        subst hstep
        have hc : (ns.valid && !s.coalesceTimerSet) = false := by
          rw [hset]; cases ns.valid <;> rfl
        simp [armIfValid, hc, hset, hp, ht]
    | timerFire => simp [runLoopStep, hp] at hstep
    | recvToken => simp [runLoopStep, ht] at hstep
    | consumerRecv =>
        cases hb : s.outbound with
        | none => simp [runLoopStep, hb] at hstep
        | some b =>
            simp only [runLoopStep, hb, Option.some.injEq] at hstep
            subst hstep
            exact ⟨hset, hp, ht, Or.inr rfl⟩

theorem runLoopBugState_reachable : RunLoopReachable runLoopBugState := by
  have h0 : RunLoopReachable (RunLoopState.init ⟨true, 0, []⟩) :=
    RunLoopReachable.init ⟨true, 0, []⟩
  have h1 : RunLoopReachable
      ⟨⟨true, 0, []⟩, true, true, false, none⟩ :=
    RunLoopReachable.step h0
      (show runLoopStep (RunLoopState.init ⟨true, 0, []⟩)
          (LoopEvent.recvUpdate ⟨true, 0, []⟩) =
        some ⟨⟨true, 0, []⟩, true, true, false, none⟩ from by decide)
  have h2 : RunLoopReachable
      ⟨⟨true, 0, []⟩, true, false, true, none⟩ :=
    RunLoopReachable.step h1
      (show runLoopStep ⟨⟨true, 0, []⟩, true, true, false, none⟩
          LoopEvent.timerFire =
        some ⟨⟨true, 0, []⟩, true, false, true, none⟩ from by decide)
  have h3 : RunLoopReachable
      ⟨⟨true, 0, []⟩, false, false, false, some ⟨true, 0, []⟩⟩ :=
    RunLoopReachable.step h2
      (show runLoopStep ⟨⟨true, 0, []⟩, true, false, true, none⟩
          LoopEvent.recvToken =
        some ⟨⟨true, 0, []⟩, false, false, false, some ⟨true, 0, []⟩⟩ from by decide)
  have h4 : RunLoopReachable
      ⟨⟨true, 1, []⟩, true, true, false, some ⟨true, 0, []⟩⟩ :=
    RunLoopReachable.step h3
      (show runLoopStep ⟨⟨true, 0, []⟩, false, false, false, some ⟨true, 0, []⟩⟩
          (LoopEvent.recvUpdate ⟨true, 1, []⟩) =
        some ⟨⟨true, 1, []⟩, true, true, false, some ⟨true, 0, []⟩⟩ from by decide)
  exact RunLoopReachable.step h4
    (show runLoopStep ⟨⟨true, 1, []⟩, true, true, false, some ⟨true, 0, []⟩⟩
        LoopEvent.timerFire = some runLoopBugState from by decide)

/-- Witness for C1: the failing configuration is reachable, and processing
its token arms no fresh timer. -/
theorem run_full_channel_no_rearm_witness :
    runLoopBugState.coalesceTimerSet = true ∧
    ∃ s1, runLoopStep runLoopBugState LoopEvent.recvToken = some s1 ∧
      s1.snap = runLoopBugState.snap ∧ s1.outbound = runLoopBugState.outbound ∧
      s1.timerPending = false ∧ s1.coalesceTimerSet = true ∧
      s1.tokenInFlight = false :=
  run_full_channel_no_rearm.1 runLoopBugState ⟨true, 0, []⟩
    runLoopBugState_reachable rfl rfl

end Consul
